import Mathlib

/-!
# onionize: the provisioning orchestrator

A shallow embedding of `lib/onionize.go`.  The function `Onionize` is a straight
line of calls into external collaborators (the URL parser, the two handler
constructors of this package, the control-port client, the key-derivation
library, the TCP stack, the watcher goroutine, the reader of `linkChan` and the
HTTP server).  Each collaborator is a field of `Env`; a run of `Onionize` is the
list of collaborator calls it performs, in program order, together with the way
the call ends.
-/

namespace onionize

/-! ## Data model -/

/-- Go `error` values, identified with the text `%v` prints for them. -/
abbrev Error := String

deriving instance DecidableEq for Except

/-- The fields of `net/url.URL` that the program reads or writes. -/
structure URL where
  Scheme : String := ""
  Opaque : String := ""
  Host : String := ""
  Path : String := ""
  RawQuery : String := ""
  Fragment : String := ""
deriving DecidableEq, Repr

/-- Source: `const slugLengthB32 = 16`. -/
def slugLengthB32 : Nat := 16

/-- Source: `type Parameters struct`. -/
structure Parameters where
  Path : String
  Zip : Bool
  Slug : Bool
  ControlPath : String
  ControlPassword : String
  Passphrase : String
  Debug : Bool
deriving DecidableEq, Repr

/-- The type `bulb.OnionPortSpec`: `VirtPort` is a `uint16`, `Target` a string. -/
structure OnionPortSpec where
  VirtPort : Nat
  Target : String
deriving DecidableEq, Repr

/-- The fields of `bulb.NewOnionConfig` the program sets; every field starts at
its Go zero value (`nil` private key, empty port list, `false` flags). -/
structure NewOnionConfig (K : Type) where
  PortSpecs : List OnionPortSpec := []
  PrivateKey : Option K := none
  DiscardPK : Bool := false
  AwaitForUpload : Bool := false
deriving DecidableEq, Repr

/-- The field of `bulb.OnionInfo` the program reads. -/
structure OnionInfo where
  OnionID : String
deriving DecidableEq, Repr

/-- The type `net.TCPAddr`; `Port` is a Go `int`. -/
structure TCPAddr where
  IP : List Nat
  Port : Int
  Zone : String
deriving DecidableEq, Repr

/-- How `server.Serve` ends: it blocks for the rest of the process lifetime, or
it returns (with an error or with `nil`). -/
inductive ServeResult where
  | blocks
  | returns (err : Option Error)
deriving DecidableEq, Repr

/-- What becomes of the statement `linkChan <- onionURL`: a reader takes the
value, or the send blocks for ever (nobody reads the channel, or it is `nil`). -/
inductive SendResult where
  | delivered
  | blocks
deriving DecidableEq, Repr

/-- The watcher goroutine calls `c.NextEvent()` in a loop and ends the process
with `log.Fatalf` at the first error.  This is when that happens, if ever,
against the progress of `Onionize`: never during the call, before the send on
`linkChan` has completed, between the send and the call of `Serve`, or while
`Serve` runs. -/
inductive WatcherResult where
  | quiet
  | lostBeforeSend
  | lostBeforeServe
  | lostWhileServing
deriving DecidableEq, Repr

/-- How a call of `Onionize` ends: it returns, it blocks for ever (in the send
or in `Serve`), or the process exits under it (the watcher's `log.Fatalf`). -/
inductive Outcome where
  | returned (err : Option Error)
  | blocked
  | exited
deriving DecidableEq, Repr

/-- The calls into collaborators that a run performs.  The type parameters are
the collaborators' own values: `H` an `http.Handler`, `C` a `*bulb.Conn`, `L` a
`net.Listener`, `K` a private key, `R` a keystream reader.  A call is recorded
when it is made; `send u` is recorded when the send completes, that is when the
value `u` has been sent on `linkChan`. -/
inductive Effect (H C L K R : Type) where
  | reverseProxy (target : URL)
  | fileServer (path : String) (slug zip debug : Bool)
  | dial (controlPath : String)
  | debug (c : C) (enable : Bool)
  | authenticate (c : C) (password : String)
  | keystreamReader (secret label : List Nat)
  | generateOnionKey (rd : R) (slot : String)
  | listen (network address : String)
  | listenerAddr (l : L)
  | listenerClose (l : L)
  | newOnion (c : C) (cfg : NewOnionConfig K)
  | spawnWatcher (c : C)
  | send (u : URL)
  | serve (handler : H) (l : L)
  | close (c : C)
deriving DecidableEq, Repr

/-- The collaborators of `Onionize`.  Every one of them is called at most once
in a run, so a function of the call's arguments describes any behaviour it can
show in that run.

* `urlParse` is `net/url.Parse`;
* `OnionReverseHTTPProxy` and `FileServer` are this package's handler
  constructors (`FileServer` returns the Go triple `handler, link, err`);
* `DialURL`, `Authenticate`, `NewOnion` are the `bulb` control-port client;
* `KeystreamReader`, `GenerateOnionKey` are the `onionutil` key derivation;
* `Listen` is `net.Listen`, and `Addr l` is the result of the type assertion
  `l.Addr().(*net.TCPAddr)` (`none` when the assertion fails);
* `Watcher c` is the fate of the goroutine that watches session `c`;
* `linkChan u` is what becomes of the send of `u` on the caller's channel;
* `Serve` is `(*http.Server).Serve`. -/
structure Env (H C L K R : Type) where
  urlParse : String → Except Error URL
  OnionReverseHTTPProxy : URL → H
  FileServer : String → Bool → Bool → Bool → H × String × Option Error
  DialURL : String → Except Error C
  Authenticate : C → String → Option Error
  KeystreamReader : List Nat → List Nat → Except Error R
  GenerateOnionKey : R → String → Except Error K
  Listen : String → String → Except Error L
  Addr : L → Option TCPAddr
  NewOnion : C → NewOnionConfig K → Except Error OnionInfo
  Watcher : C → WatcherResult
  linkChan : URL → SendResult
  Serve : H → L → ServeResult

/-- A run: the collaborator calls in program order, and how the call ended. -/
structure Run (H C L K R : Type) where
  trace : List (Effect H C L K R)
  outcome : Outcome

variable {H C L K R : Type}

/-! ## Conversions -/

/-- The Go conversion `[]byte(s)`. -/
def bytes (s : String) : List Nat :=
  s.toUTF8.data.toList.map UInt8.toNat

/-- The Go conversion `uint64(n)` of an `int`. -/
def uint64 (n : Int) : Nat :=
  (n % 2 ^ 64).toNat

/-- The call `strconv.FormatUint(n, base)`, for bases up to ten. -/
def FormatUint (n base : Nat) : String :=
  String.mk (Nat.toDigits base n)

/-- Source: `const loopbackAddr = "127.0.0.1:0"`. -/
def loopbackAddr : String := "127.0.0.1:0"

/-! ## The orchestrator -/

/-- The `switch target.Scheme` of `Onionize`: the calls it makes, and either
the error it returns or the values of `handler` and `link` after it. -/
def selectHandler (env : Env H C L K R) (p : Parameters) (target : URL) :
    List (Effect H C L K R) × Except Error (H × String) :=
  if target.Scheme = "http" ∨ target.Scheme = "https" then
    ([.reverseProxy target], .ok (env.OnionReverseHTTPProxy target, ""))
  else if target.Scheme = "" then
    match env.FileServer p.Path p.Slug p.Zip p.Debug with
    | (handler, link, none) => ([.fileServer p.Path p.Slug p.Zip p.Debug], .ok (handler, link))
    | (_, _, some err) => ([.fileServer p.Path p.Slug p.Zip p.Debug], .error err)
  else
    ([], .error ("Unsupported target type: " ++ target.Scheme))

/-- The block of `Onionize` that builds `nocfg`: the flags, and the private key
when a passphrase is given. -/
def keyMaterial (env : Env H C L K R) (p : Parameters) :
    List (Effect H C L K R) × Except Error (NewOnionConfig K) :=
  let nocfg : NewOnionConfig K := { DiscardPK := true, AwaitForUpload := true }
  if p.Passphrase ≠ "" then
    match env.KeystreamReader (bytes p.Passphrase) (bytes "onionize-keygen") with
    | .error err =>
      ([.keystreamReader (bytes p.Passphrase) (bytes "onionize-keygen")],
        .error ("Unable to create keystream: " ++ err))
    | .ok keyrd =>
      match env.GenerateOnionKey keyrd "current" with
      | .error err =>
        ([.keystreamReader (bytes p.Passphrase) (bytes "onionize-keygen"),
          .generateOnionKey keyrd "current"],
          .error ("Unable to generate onion key: " ++ err))
      | .ok privOnionKey =>
        ([.keystreamReader (bytes p.Passphrase) (bytes "onionize-keygen"),
          .generateOnionKey keyrd "current"],
          .ok { nocfg with PrivateKey := some privOnionKey })
  else
    ([], .ok nocfg)

/-- The send on `linkChan` of `u` completes in a run with session `c`: the
watcher does not end the process before it, and a reader takes the value. -/
def sendCompletes (env : Env H C L K R) (c : C) (u : URL) : Bool :=
  match env.Watcher c with
  | .lostBeforeSend => false
  | _ =>
    match env.linkChan u with
    | .delivered => true
    | .blocks => false

/-- The call `server.Serve(tcpListener)` and the two statements after it. -/
def serveAndReturn (env : Env H C L K R) (handler : H) (l : L) : Outcome :=
  match env.Serve handler l with
  | .blocks => .blocked
  | .returns (some err) => .returned (some ("Cannot serve HTTP: " ++ err))
  | .returns none => .returned none

/-- The tail of `Onionize` after `NewOnion` has returned: start the watcher
goroutine, send the address on `linkChan`, serve.  The send blocks until a
reader takes the value, and from the moment the watcher runs its `log.Fatalf`
can end the process: before the send has completed (also while it is blocked),
between the send and `Serve`, or during `Serve`.  A watcher that would fail
only after the send never does so when the send blocks for ever. -/
def publishAndServe (env : Env H C L K R) (handler : H) (link : String) (c : C) (l : L)
    (oi : OnionInfo) : Run H C L K R :=
  let onionURL : URL := { Scheme := "http", Host := oi.OnionID ++ ".onion", Path := link }
  match env.Watcher c with
  | .lostBeforeSend => ⟨[.spawnWatcher c], .exited⟩
  | fate =>
    match env.linkChan onionURL with
    | .blocks => ⟨[.spawnWatcher c], .blocked⟩
    | .delivered =>
      match fate with
      | .lostBeforeServe => ⟨[.spawnWatcher c, .send onionURL], .exited⟩
      | .lostWhileServing => ⟨[.spawnWatcher c, .send onionURL, .serve handler l], .exited⟩
      | _ => ⟨[.spawnWatcher c, .send onionURL, .serve handler l], serveAndReturn env handler l⟩

/-- The part of `Onionize` that runs under `defer c.Close()`. -/
def session (env : Env H C L K R) (p : Parameters) (handler : H) (link : String) (c : C) :
    Run H C L K R :=
  let t0 : List (Effect H C L K R) := [.debug c p.Debug, .authenticate c p.ControlPassword]
  match env.Authenticate c p.ControlPassword with
  | some err => ⟨t0, .returned (some ("Authentication failed: " ++ err))⟩
  | none =>
    match keyMaterial env p with
    | (t1, .error err) => ⟨t0 ++ t1, .returned (some err)⟩
    | (t1, .ok nocfg) =>
      match env.Listen "tcp4" loopbackAddr with
      | .error err => ⟨t0 ++ t1 ++ [.listen "tcp4" loopbackAddr], .returned (some err)⟩
      | .ok tcpListener =>
        match env.Addr tcpListener with
        | none =>
          ⟨t0 ++ t1 ++ [.listen "tcp4" loopbackAddr, .listenerAddr tcpListener,
              .listenerClose tcpListener],
            .returned (some "Failed to extract local port")⟩
        | some tAddr =>
          let virtPort : Nat := 80
          let targetPortStr := FormatUint (uint64 tAddr.Port) 10
          let portSpec : OnionPortSpec := { VirtPort := virtPort, Target := targetPortStr }
          let cfg : NewOnionConfig K := { nocfg with PortSpecs := [portSpec] }
          match env.NewOnion c cfg with
          | .error err =>
            ⟨t0 ++ t1 ++ [.listen "tcp4" loopbackAddr, .listenerAddr tcpListener,
                .newOnion c cfg],
              .returned (some ("Error occured while creating an onion service: " ++ err))⟩
          | .ok oi =>
            let r := publishAndServe env handler link c tcpListener oi
            ⟨t0 ++ t1 ++ [.listen "tcp4" loopbackAddr, .listenerAddr tcpListener,
                .newOnion c cfg] ++ r.trace, r.outcome⟩

/-- The deferred `c.Close()`: it runs when the function returns. -/
def deferredClose (c : C) : Outcome → List (Effect H C L K R)
  | .returned _ => [.close c]
  | .blocked => []
  | .exited => []

/-- Source: `func Onionize(p Parameters, linkChan chan<- url.URL) error`. -/
def Onionize (env : Env H C L K R) (p : Parameters) : Run H C L K R :=
  match env.urlParse p.Path with
  | .error err => ⟨[], .returned (some ("Unable to parse target URL: " ++ err))⟩
  | .ok target =>
    match selectHandler env p target with
    | (t, .error err) => ⟨t, .returned (some err)⟩
    | (t, .ok (handler, link)) =>
      let controlPath := if p.ControlPath = "" then "default://" else p.ControlPath
      match env.DialURL controlPath with
      | .error err =>
        ⟨t ++ [.dial controlPath],
          .returned (some ("Failed to connect to control socket: " ++ err))⟩
      | .ok c =>
        let r := session env p handler link c
        ⟨t ++ [.dial controlPath] ++ r.trace ++ deferredClose c r.outcome, r.outcome⟩

/-! ## Observations on traces -/

/-- A call of one of the two handler constructors. -/
def isConstructor : Effect H C L K R → Bool
  | .reverseProxy _ => true
  | .fileServer _ _ _ _ => true
  | _ => false

/-- An `Authenticate` call that the daemon accepts. -/
def isAuthenticated (env : Env H C L K R) : Effect H C L K R → Bool
  | .authenticate c password => (env.Authenticate c password).isNone
  | _ => false

/-- A call into the key derivation library. -/
def isKeyDerivation : Effect H C L K R → Bool
  | .keystreamReader _ _ => true
  | .generateOnionKey _ _ => true
  | _ => false

/-- A listener bind. -/
def isListen : Effect H C L K R → Bool
  | .listen _ _ => true
  | _ => false

/-- A close of the listener. -/
def isListenerClose : Effect H C L K R → Bool
  | .listenerClose _ => true
  | _ => false

/-- A service-creation request. -/
def isNewOnion : Effect H C L K R → Bool
  | .newOnion _ _ => true
  | _ => false

/-- A service-creation request that the daemon answers with a service. -/
def isCreated (env : Env H C L K R) : Effect H C L K R → Bool
  | .newOnion c cfg => (env.NewOnion c cfg).isOk
  | _ => false

/-- A send on `linkChan`. -/
def isSend : Effect H C L K R → Bool
  | .send _ => true
  | _ => false

/-- A call of `server.Serve`. -/
def isServe : Effect H C L K R → Bool
  | .serve _ _ => true
  | _ => false

/-- A close of the control session. -/
def isClose : Effect H C L K R → Bool
  | .close _ => true
  | _ => false

/-- An operation on the control session, the dial that opens it apart. -/
def isSessionOp : Effect H C L K R → Bool
  | .debug _ _ => true
  | .authenticate _ _ => true
  | .newOnion _ _ => true
  | .spawnWatcher _ => true
  | .close _ => true
  | _ => false

/-- The control address the run dials: `p.ControlPath`, or `default://` when
that is empty. -/
def controlPath (p : Parameters) : String :=
  if p.ControlPath = "" then "default://" else p.ControlPath

/-- Handler selection succeeds, and with which link: the scheme of the target
is `http` or `https` (the link is empty), or it is empty and `FileServer`
returns no error (the link is the one it returns). -/
def selectedLink (env : Env H C L K R) (p : Parameters) (target : URL) : Option String :=
  if target.Scheme = "http" ∨ target.Scheme = "https" then some ""
  else if target.Scheme = "" then
    match env.FileServer p.Path p.Slug p.Zip p.Debug with
    | (_, link, none) => some link
    | (_, _, some _) => none
  else none

/-- Key derivation succeeds, and with which key: none without a passphrase,
otherwise the key generated from the keystream of the passphrase. -/
def derivedKey (env : Env H C L K R) (p : Parameters) : Option (Option K) :=
  if p.Passphrase = "" then some none
  else
    match env.KeystreamReader (bytes p.Passphrase) (bytes "onionize-keygen") with
    | .error _ => none
    | .ok rd =>
      match env.GenerateOnionKey rd "current" with
      | .error _ => none
      | .ok key => some (some key)

/-- What the steps of a run up to and including service creation yield, read
off the collaborators' answers step by step: the target parses; a handler is
selected; the dial of the control address succeeds; the daemon accepts the
password; the key is derived; the listener is bound and gives its port; the
daemon creates the service for virtual port 80 and that port.  The result is
the session and the address to publish, and `none` when a step fails. -/
def publication (env : Env H C L K R) (p : Parameters) : Option (C × URL) :=
  match env.urlParse p.Path with
  | .error _ => none
  | .ok target =>
    match selectedLink env p target with
    | none => none
    | some link =>
      match env.DialURL (controlPath p) with
      | .error _ => none
      | .ok c =>
        match env.Authenticate c p.ControlPassword with
        | some _ => none
        | none =>
          match derivedKey env p with
          | none => none
          | some key =>
            match env.Listen "tcp4" "127.0.0.1:0" with
            | .error _ => none
            | .ok l =>
              match env.Addr l with
              | none => none
              | some tAddr =>
                match env.NewOnion c
                    { PortSpecs :=
                        [{ VirtPort := 80, Target := FormatUint (uint64 tAddr.Port) 10 }]
                      PrivateKey := key
                      DiscardPK := true
                      AwaitForUpload := true } with
                | .error _ => none
                | .ok oi =>
                  some (c, { Scheme := "http", Host := oi.OnionID ++ ".onion", Path := link })

/-- Every step of a run up to and including service creation succeeds: target
parse, handler selection, dial, authentication, key derivation, listen, port
extraction, `NewOnion`. -/
def provisioned (env : Env H C L K R) (p : Parameters) : Bool :=
  (publication env p).isSome

/-- Every step up to and including service creation succeeds and the send of
the address on `linkChan` completes. -/
def published (env : Env H C L K R) (p : Parameters) : Bool :=
  match publication env p with
  | none => false
  | some (c, u) => sendCompletes env c u

/-- The position of a call in the program text of `Onionize`; the two handler
constructors, of which a run calls one, share the first position. -/
def rank : Effect H C L K R → Nat
  | .reverseProxy _ => 0
  | .fileServer _ _ _ _ => 0
  | .dial _ => 1
  | .debug _ _ => 2
  | .authenticate _ _ => 3
  | .keystreamReader _ _ => 4
  | .generateOnionKey _ _ => 5
  | .listen _ _ => 6
  | .listenerAddr _ => 7
  | .listenerClose _ => 8
  | .newOnion _ _ => 9
  | .spawnWatcher _ => 10
  | .send _ => 11
  | .serve _ _ => 12
  | .close _ => 13

/-- The port specification `Onionize` builds from the listener's address. -/
def portSpecOf (tAddr : TCPAddr) : OnionPortSpec :=
  { VirtPort := 80, Target := FormatUint (uint64 tAddr.Port) 10 }

/-- The runs of `Onionize`, one rule per exit of the function: which answers of
the collaborators lead there, the calls made on the way and the result. -/
inductive Runs (env : Env H C L K R) (p : Parameters) : Run H C L K R → Prop
  | parseError (err : Error) :
    env.urlParse p.Path = .error err →
    Runs env p ⟨[], .returned (some ("Unable to parse target URL: " ++ err))⟩
  | selectError (target : URL) (t : List (Effect H C L K R)) (err : Error) :
    env.urlParse p.Path = .ok target →
    selectHandler env p target = (t, .error err) →
    Runs env p ⟨t, .returned (some err)⟩
  | dialError (target : URL) (t : List (Effect H C L K R)) (handler : H) (link : String)
      (err : Error) :
    env.urlParse p.Path = .ok target →
    selectHandler env p target = (t, .ok (handler, link)) →
    env.DialURL (controlPath p) = .error err →
    Runs env p ⟨t ++ [.dial (controlPath p)],
      .returned (some ("Failed to connect to control socket: " ++ err))⟩
  | authError (target : URL) (t : List (Effect H C L K R)) (handler : H) (link : String)
      (c : C) (err : Error) :
    env.urlParse p.Path = .ok target →
    selectHandler env p target = (t, .ok (handler, link)) →
    env.DialURL (controlPath p) = .ok c →
    env.Authenticate c p.ControlPassword = some err →
    Runs env p ⟨t ++ [.dial (controlPath p), .debug c p.Debug,
        .authenticate c p.ControlPassword, .close c],
      .returned (some ("Authentication failed: " ++ err))⟩
  | keyError (target : URL) (t t1 : List (Effect H C L K R)) (handler : H) (link : String)
      (c : C) (err : Error) :
    env.urlParse p.Path = .ok target →
    selectHandler env p target = (t, .ok (handler, link)) →
    env.DialURL (controlPath p) = .ok c →
    env.Authenticate c p.ControlPassword = none →
    keyMaterial env p = (t1, .error err) →
    Runs env p ⟨t ++ [.dial (controlPath p), .debug c p.Debug,
        .authenticate c p.ControlPassword] ++ t1 ++ [.close c],
      .returned (some err)⟩
  | listenError (target : URL) (t t1 : List (Effect H C L K R)) (handler : H) (link : String)
      (c : C) (nocfg : NewOnionConfig K) (err : Error) :
    env.urlParse p.Path = .ok target →
    selectHandler env p target = (t, .ok (handler, link)) →
    env.DialURL (controlPath p) = .ok c →
    env.Authenticate c p.ControlPassword = none →
    keyMaterial env p = (t1, .ok nocfg) →
    env.Listen "tcp4" "127.0.0.1:0" = .error err →
    Runs env p ⟨t ++ [.dial (controlPath p), .debug c p.Debug,
        .authenticate c p.ControlPassword] ++ t1 ++ [.listen "tcp4" "127.0.0.1:0", .close c],
      .returned (some err)⟩
  | addrError (target : URL) (t t1 : List (Effect H C L K R)) (handler : H) (link : String)
      (c : C) (nocfg : NewOnionConfig K) (l : L) :
    env.urlParse p.Path = .ok target →
    selectHandler env p target = (t, .ok (handler, link)) →
    env.DialURL (controlPath p) = .ok c →
    env.Authenticate c p.ControlPassword = none →
    keyMaterial env p = (t1, .ok nocfg) →
    env.Listen "tcp4" "127.0.0.1:0" = .ok l →
    env.Addr l = none →
    Runs env p ⟨t ++ [.dial (controlPath p), .debug c p.Debug,
        .authenticate c p.ControlPassword] ++ t1 ++ [.listen "tcp4" "127.0.0.1:0",
        .listenerAddr l, .listenerClose l, .close c],
      .returned (some "Failed to extract local port")⟩
  | createError (target : URL) (t t1 : List (Effect H C L K R)) (handler : H) (link : String)
      (c : C) (nocfg : NewOnionConfig K) (l : L) (tAddr : TCPAddr) (err : Error) :
    env.urlParse p.Path = .ok target →
    selectHandler env p target = (t, .ok (handler, link)) →
    env.DialURL (controlPath p) = .ok c →
    env.Authenticate c p.ControlPassword = none →
    keyMaterial env p = (t1, .ok nocfg) →
    env.Listen "tcp4" "127.0.0.1:0" = .ok l →
    env.Addr l = some tAddr →
    env.NewOnion c { nocfg with PortSpecs := [portSpecOf tAddr] } = .error err →
    Runs env p ⟨t ++ [.dial (controlPath p), .debug c p.Debug,
        .authenticate c p.ControlPassword] ++ t1 ++ [.listen "tcp4" "127.0.0.1:0",
        .listenerAddr l, .newOnion c { nocfg with PortSpecs := [portSpecOf tAddr] }, .close c],
      .returned (some ("Error occured while creating an onion service: " ++ err))⟩
  | created (target : URL) (t t1 : List (Effect H C L K R)) (handler : H) (link : String)
      (c : C) (nocfg : NewOnionConfig K) (l : L) (tAddr : TCPAddr) (oi : OnionInfo) :
    env.urlParse p.Path = .ok target →
    selectHandler env p target = (t, .ok (handler, link)) →
    env.DialURL (controlPath p) = .ok c →
    env.Authenticate c p.ControlPassword = none →
    keyMaterial env p = (t1, .ok nocfg) →
    env.Listen "tcp4" "127.0.0.1:0" = .ok l →
    env.Addr l = some tAddr →
    env.NewOnion c { nocfg with PortSpecs := [portSpecOf tAddr] } = .ok oi →
    Runs env p ⟨t ++ [.dial (controlPath p), .debug c p.Debug,
        .authenticate c p.ControlPassword] ++ t1 ++ [.listen "tcp4" "127.0.0.1:0",
        .listenerAddr l, .newOnion c { nocfg with PortSpecs := [portSpecOf tAddr] }] ++
        ((publishAndServe env handler link c l oi).trace ++
          deferredClose c (publishAndServe env handler link c l oi).outcome),
      (publishAndServe env handler link c l oi).outcome⟩

/-- The calls of a run that gets as far as the port extraction: handler
constructor, dial, `Debug`, `Authenticate`, key derivation, listen, address. -/
def callsUpToPort (p : Parameters) (t t1 : List (Effect H C L K R)) (c : C) (l : L) :
    List (Effect H C L K R) :=
  t ++ [.dial (controlPath p), .debug c p.Debug, .authenticate c p.ControlPassword] ++ t1 ++
    [.listen "tcp4" "127.0.0.1:0", .listenerAddr l]

/-- The configuration `Onionize` submits: `nocfg` with the single port
specification of the listener's address. -/
def requestOf (nocfg : NewOnionConfig K) (tAddr : TCPAddr) : NewOnionConfig K :=
  { nocfg with PortSpecs := [portSpecOf tAddr] }

/-! ## A concrete daemon and host -/

/-- A host on which every step succeeds and `Serve` blocks: the URL parser knows
two URLs and reads anything else as a path, the daemon accepts the password
`hunter2`, and the listener gets port 40123. -/
def demoEnv : Env String Nat Nat Nat Nat where
  urlParse := fun s =>
    if s = "https://example.org" then .ok { Scheme := "https", Host := "example.org" }
    else if s = "ftp://x" then .ok { Scheme := "ftp", Host := "x" }
    else .ok { Path := s }
  OnionReverseHTTPProxy := fun u => "proxy to " ++ u.Host
  FileServer := fun path slug _ _ =>
    ("files under " ++ path, if slug then "/mfrggzdfmztwq2lk" else "", none)
  DialURL := fun _ => .ok 1
  Authenticate := fun _ password =>
    if password = "hunter2" then none else some "515 Bad password"
  KeystreamReader := fun secret _ => .ok secret.length
  GenerateOnionKey := fun rd _ => .ok (rd + 1000)
  Listen := fun _ _ => .ok 3
  Addr := fun _ => some { IP := [127, 0, 0, 1], Port := 40123, Zone := "" }
  NewOnion := fun _ _ => .ok { OnionID := "expyuzz4wqqyqhjn" }
  Watcher := fun _ => .quiet
  linkChan := fun _ => .delivered
  Serve := fun _ _ => .blocks

/-- The host of `demoEnv` with a daemon that refuses to create the service. -/
def refusingEnv : Env String Nat Nat Nat Nat :=
  { demoEnv with NewOnion := fun _ _ => .error "512 Invalid VIRTPORT/TARGET" }

/-- The host of `demoEnv` with a caller that never reads `linkChan`. -/
def unreadEnv : Env String Nat Nat Nat Nat :=
  { demoEnv with linkChan := fun _ => .blocks }

/-- The host of `demoEnv` with a daemon that goes away right after it has
created the service: the watcher ends the process before the send. -/
def lostEnv : Env String Nat Nat Nat Nat :=
  { demoEnv with Watcher := fun _ => .lostBeforeSend }

/-- The host of `demoEnv` with a server whose `Serve` returns. -/
def closingEnv : Env String Nat Nat Nat Nat :=
  { demoEnv with Serve := fun _ _ => .returns (some "http: Server closed") }

/-- Reverse proxy to `https://example.org`, daemon-generated key. -/
def demoProxy : Parameters :=
  { Path := "https://example.org", Zip := false, Slug := false, ControlPath := "",
    ControlPassword := "hunter2", Passphrase := "", Debug := false }

/-- File server over `/srv/www` with a slug, key derived from a passphrase. -/
def demoFiles : Parameters :=
  { Path := "/srv/www", Zip := false, Slug := true, ControlPath := "",
    ControlPassword := "hunter2", Passphrase := "correct horse", Debug := false }

/-- A target of an unsupported kind. -/
def demoFtp : Parameters :=
  { Path := "ftp://x", Zip := false, Slug := true, ControlPath := "",
    ControlPassword := "hunter2", Passphrase := "", Debug := false }

/-- The parameters of `demoFiles` with a wrong control password. -/
def demoBadAuth : Parameters :=
  { demoFiles with ControlPassword := "letmein" }

/-- The creation request of the run of `demoFiles` on `demoEnv`. -/
def demoRequest : NewOnionConfig Nat :=
  { PortSpecs := [{ VirtPort := 80, Target := "40123" }], PrivateKey := some 1013,
    DiscardPK := true, AwaitForUpload := true }

/-- The address that run publishes. -/
def demoAddress : URL :=
  { Scheme := "http", Host := "expyuzz4wqqyqhjn.onion", Path := "/mfrggzdfmztwq2lk" }

/-- Another host and daemon, with the key derivation of `demoEnv`: another
session, any password accepted, another port, another service name, and a
`Serve` that returns. -/
def otherEnv : Env String Nat Nat Nat Nat :=
  { demoEnv with
    DialURL := fun _ => .ok 2
    Authenticate := fun _ _ => none
    Listen := fun _ _ => .ok 8
    Addr := fun _ => some { IP := [127, 0, 0, 1], Port := 51234, Zone := "" }
    NewOnion := fun _ _ => .ok { OnionID := "3g2upl4pq6kufc4m" }
    Serve := fun _ _ => .returns none }

/-- Parameters that share only the passphrase with `demoFiles`. -/
def demoOther : Parameters :=
  { Path := "https://example.org", Zip := true, Slug := false,
    ControlPath := "tcp://127.0.0.1:9051", ControlPassword := "swordfish",
    Passphrase := "correct horse", Debug := true }

/-- The creation request of the run of `demoOther` on `otherEnv`. -/
def otherRequest : NewOnionConfig Nat :=
  { PortSpecs := [{ VirtPort := 80, Target := "51234" }], PrivateKey := some 1013,
    DiscardPK := true, AwaitForUpload := true }

/-- A host whose listener does not give a TCP address. -/
def noPortEnv : Env String Nat Nat Nat Nat :=
  { demoEnv with Addr := fun _ => none }

/-! ## The runs of `Onionize` -/

/-- The three ways the tail of a run goes: it stops after starting the watcher
(the process exits or the send blocks) and nothing is sent; the value is sent
and the process exits before `Serve`; the value is sent and `Serve` is
called. -/
theorem publishAndServe_cases (env : Env H C L K R) (handler : H) (link : String) (c : C)
    (l : L) (oi : OnionInfo) :
    (∃ o, publishAndServe env handler link c l oi = ⟨[.spawnWatcher c], o⟩ ∧
        (o = .blocked ∨ o = .exited) ∧
        sendCompletes env c
          { Scheme := "http", Host := oi.OnionID ++ ".onion", Path := link } = false) ∨
      (publishAndServe env handler link c l oi =
          ⟨[.spawnWatcher c,
            .send { Scheme := "http", Host := oi.OnionID ++ ".onion", Path := link }],
            .exited⟩ ∧
        sendCompletes env c
          { Scheme := "http", Host := oi.OnionID ++ ".onion", Path := link } = true) ∨
      (∃ o, publishAndServe env handler link c l oi =
          ⟨[.spawnWatcher c,
            .send { Scheme := "http", Host := oi.OnionID ++ ".onion", Path := link },
            .serve handler l], o⟩ ∧
        sendCompletes env c
          { Scheme := "http", Host := oi.OnionID ++ ".onion", Path := link } = true) := by
  cases hw : env.Watcher c <;>
    cases hl : env.linkChan
      { Scheme := "http", Host := oi.OnionID ++ ".onion", Path := link } <;>
    simp [publishAndServe, sendCompletes, hw, hl]

/-- The calls of a run after the creation request, the deferred close
included, and how the run ends: the four shapes. -/
theorem tail_cases (env : Env H C L K R) (handler : H) (link : String) (c : C)
    (l : L) (oi : OnionInfo) :
    ((publishAndServe env handler link c l oi).trace ++
          deferredClose c (publishAndServe env handler link c l oi).outcome =
        [.spawnWatcher c] ∧
      ((publishAndServe env handler link c l oi).outcome = .blocked ∨
        (publishAndServe env handler link c l oi).outcome = .exited)) ∨
    ((publishAndServe env handler link c l oi).trace ++
          deferredClose c (publishAndServe env handler link c l oi).outcome =
        [.spawnWatcher c,
          .send { Scheme := "http", Host := oi.OnionID ++ ".onion", Path := link }] ∧
      (publishAndServe env handler link c l oi).outcome = .exited) ∨
    ((publishAndServe env handler link c l oi).trace ++
          deferredClose c (publishAndServe env handler link c l oi).outcome =
        [.spawnWatcher c,
          .send { Scheme := "http", Host := oi.OnionID ++ ".onion", Path := link },
          .serve handler l] ∧
      ((publishAndServe env handler link c l oi).outcome = .blocked ∨
        (publishAndServe env handler link c l oi).outcome = .exited)) ∨
    (∃ res, (publishAndServe env handler link c l oi).trace ++
          deferredClose c (publishAndServe env handler link c l oi).outcome =
        [.spawnWatcher c,
          .send { Scheme := "http", Host := oi.OnionID ++ ".onion", Path := link },
          .serve handler l, .close c] ∧
      (publishAndServe env handler link c l oi).outcome = .returned res) := by
  rcases publishAndServe_cases env handler link c l oi with
    ⟨o, hps, ho, -⟩ | ⟨hps, -⟩ | ⟨o, hps, -⟩
  · rw [hps]
    rcases ho with rfl | rfl <;> simp [deferredClose]
  · rw [hps]
    simp [deferredClose]
  · rw [hps]
    cases o <;> simp [deferredClose]

/-- Every call of `Onionize` is one of the runs of `Runs`. -/
theorem Onionize_runs (env : Env H C L K R) (p : Parameters) :
    Runs env p (Onionize env p) := by
  cases hp : env.urlParse p.Path with
  | error err =>
    have h : Onionize env p = ⟨[], .returned (some ("Unable to parse target URL: " ++ err))⟩ := by
      simp only [Onionize, hp]
    rw [h]; exact .parseError err hp
  | ok target =>
    rcases hs : selectHandler env p target with ⟨t, (err | ⟨handler, link⟩)⟩
    · have h : Onionize env p = ⟨t, .returned (some err)⟩ := by
        simp only [Onionize, hp, hs]
      rw [h]; exact .selectError target t err hp hs
    · cases hd : env.DialURL (controlPath p) with
      | error err =>
        have h : Onionize env p = ⟨t ++ [.dial (controlPath p)],
            .returned (some ("Failed to connect to control socket: " ++ err))⟩ := by
          unfold controlPath at hd
          simp only [Onionize, hp, hs, hd, controlPath]
        rw [h]; exact .dialError target t handler link err hp hs hd
      | ok c =>
        have h : Onionize env p = ⟨t ++ [.dial (controlPath p)]
            ++ (session env p handler link c).trace
            ++ deferredClose c (session env p handler link c).outcome,
            (session env p handler link c).outcome⟩ := by
          unfold controlPath at hd
          simp only [Onionize, hp, hs, hd, controlPath]
        rw [h]
        cases ha : env.Authenticate c p.ControlPassword with
        | some err =>
          have hsess : session env p handler link c =
              ⟨[.debug c p.Debug, .authenticate c p.ControlPassword],
                .returned (some ("Authentication failed: " ++ err))⟩ := by
            simp only [session, ha]
          rw [hsess]
          simpa [deferredClose] using Runs.authError target t handler link c err hp hs hd ha
        | none =>
          rcases hk : keyMaterial env p with ⟨t1, (err | nocfg)⟩
          · have hsess : session env p handler link c =
                ⟨[.debug c p.Debug, .authenticate c p.ControlPassword] ++ t1,
                  .returned (some err)⟩ := by
              simp only [session, ha, hk]
            rw [hsess]
            simpa [deferredClose] using Runs.keyError target t t1 handler link c err hp hs hd ha hk
          · cases hl : env.Listen "tcp4" "127.0.0.1:0" with
            | error err =>
              have hsess : session env p handler link c =
                  ⟨[.debug c p.Debug, .authenticate c p.ControlPassword] ++ t1
                    ++ [.listen "tcp4" "127.0.0.1:0"], .returned (some err)⟩ := by
                simp only [session, ha, hk, hl, loopbackAddr]
              rw [hsess]
              simpa [deferredClose] using
                Runs.listenError target t t1 handler link c nocfg err hp hs hd ha hk hl
            | ok l =>
              cases hq : env.Addr l with
              | none =>
                have hsess : session env p handler link c =
                    ⟨[.debug c p.Debug, .authenticate c p.ControlPassword] ++ t1
                      ++ [.listen "tcp4" "127.0.0.1:0", .listenerAddr l, .listenerClose l],
                      .returned (some "Failed to extract local port")⟩ := by
                  simp only [session, ha, hk, hl, hq, loopbackAddr]
                rw [hsess]
                simpa [deferredClose] using
                  Runs.addrError target t t1 handler link c nocfg l hp hs hd ha hk hl hq
              | some tAddr =>
                cases hn : env.NewOnion c { nocfg with PortSpecs := [portSpecOf tAddr] } with
                | error err =>
                  have hsess : session env p handler link c =
                      ⟨[.debug c p.Debug, .authenticate c p.ControlPassword] ++ t1
                        ++ [.listen "tcp4" "127.0.0.1:0", .listenerAddr l,
                          .newOnion c { nocfg with PortSpecs := [portSpecOf tAddr] }],
                        .returned (some ("Error occured while creating an onion service: "
                          ++ err))⟩ := by
                    unfold portSpecOf at hn
                    simp only [session, ha, hk, hl, hq, hn, loopbackAddr, portSpecOf]
                  rw [hsess]
                  simpa [deferredClose] using
                    Runs.createError target t t1 handler link c nocfg l tAddr err
                      hp hs hd ha hk hl hq hn
                | ok oi =>
                  have hsess : session env p handler link c =
                      ⟨[.debug c p.Debug, .authenticate c p.ControlPassword] ++ t1
                        ++ [.listen "tcp4" "127.0.0.1:0", .listenerAddr l,
                          .newOnion c { nocfg with PortSpecs := [portSpecOf tAddr] }]
                        ++ (publishAndServe env handler link c l oi).trace,
                        (publishAndServe env handler link c l oi).outcome⟩ := by
                    unfold portSpecOf at hn
                    simp only [session, ha, hk, hl, hq, hn, loopbackAddr, portSpecOf]
                  rw [hsess]
                  simpa using
                    Runs.created target t t1 handler link c nocfg l tAddr oi
                      hp hs hd ha hk hl hq hn

/-! ## The two sub-blocks -/

theorem selectHandler_ok {env : Env H C L K R} {p : Parameters} {target : URL}
    {t : List (Effect H C L K R)} {handler : H} {link : String}
    (h : selectHandler env p target = (t, .ok (handler, link))) :
    ((target.Scheme = "http" ∨ target.Scheme = "https") ∧ t = [.reverseProxy target] ∧
        handler = env.OnionReverseHTTPProxy target ∧ link = "") ∨
      (target.Scheme = "" ∧ t = [.fileServer p.Path p.Slug p.Zip p.Debug] ∧
        env.FileServer p.Path p.Slug p.Zip p.Debug = (handler, link, none)) := by
  unfold selectHandler at h
  split at h
  · next hs =>
    simp only [Prod.mk.injEq, Except.ok.injEq] at h
    exact .inl ⟨hs, h.1.symm, h.2.1.symm, h.2.2.symm⟩
  · split at h
    · next hs =>
      split at h
      · next hf =>
        simp only [Prod.mk.injEq, Except.ok.injEq] at h
        refine .inr ⟨hs, h.1.symm, ?_⟩
        rw [hf, h.2.1, h.2.2]
      · simp at h
    · simp at h

theorem selectHandler_error {env : Env H C L K R} {p : Parameters} {target : URL}
    {t : List (Effect H C L K R)} {err : Error}
    (h : selectHandler env p target = (t, .error err)) :
    (target.Scheme = "" ∧ t = [.fileServer p.Path p.Slug p.Zip p.Debug] ∧
        (env.FileServer p.Path p.Slug p.Zip p.Debug).2.2 = some err) ∨
      (target.Scheme ≠ "http" ∧ target.Scheme ≠ "https" ∧ target.Scheme ≠ "" ∧ t = [] ∧
        err = "Unsupported target type: " ++ target.Scheme) := by
  unfold selectHandler at h
  split at h
  · simp at h
  · next hs =>
    split at h
    · next hs0 =>
      split at h
      · simp at h
      · next hf =>
        simp only [Prod.mk.injEq, Except.error.injEq] at h
        refine .inl ⟨hs0, h.1.symm, ?_⟩
        rw [hf, h.2]
    · next hs0 =>
      simp only [Prod.mk.injEq, Except.error.injEq] at h
      simp only [not_or] at hs
      exact .inr ⟨hs.1, hs.2, hs0, h.1.symm, h.2.symm⟩

theorem keyMaterial_ok {env : Env H C L K R} {p : Parameters}
    {t1 : List (Effect H C L K R)} {nocfg : NewOnionConfig K}
    (h : keyMaterial env p = (t1, .ok nocfg)) :
    (p.Passphrase = "" ∧ t1 = [] ∧
        nocfg = { DiscardPK := true, AwaitForUpload := true }) ∨
      (p.Passphrase ≠ "" ∧ ∃ keyrd key,
        env.KeystreamReader (bytes p.Passphrase) (bytes "onionize-keygen") = .ok keyrd ∧
        env.GenerateOnionKey keyrd "current" = .ok key ∧
        t1 = [.keystreamReader (bytes p.Passphrase) (bytes "onionize-keygen"),
          .generateOnionKey keyrd "current"] ∧
        nocfg = { DiscardPK := true, AwaitForUpload := true, PrivateKey := some key }) := by
  unfold keyMaterial at h
  split at h
  · next hp =>
    split at h
    · simp at h
    · next keyrd hk =>
      split at h
      · simp at h
      · next key hg =>
        simp only [Prod.mk.injEq, Except.ok.injEq] at h
        exact .inr ⟨hp, keyrd, key, hk, hg, h.1.symm, h.2.symm⟩
  · next hp =>
    simp only [Prod.mk.injEq, Except.ok.injEq] at h
    exact .inl ⟨not_not.mp hp, h.1.symm, h.2.symm⟩

theorem keyMaterial_error {env : Env H C L K R} {p : Parameters}
    {t1 : List (Effect H C L K R)} {err : Error}
    (h : keyMaterial env p = (t1, .error err)) :
    p.Passphrase ≠ "" ∧
      (t1 = [.keystreamReader (bytes p.Passphrase) (bytes "onionize-keygen")] ∨
        ∃ keyrd, t1 = [.keystreamReader (bytes p.Passphrase) (bytes "onionize-keygen"),
          .generateOnionKey keyrd "current"]) := by
  unfold keyMaterial at h
  split at h
  · next hp =>
    refine ⟨hp, ?_⟩
    split at h
    · simp only [Prod.mk.injEq, Except.error.injEq] at h
      exact .inl h.1.symm
    · next keyrd hk =>
      split at h
      · simp only [Prod.mk.injEq, Except.error.injEq] at h
        exact .inr ⟨keyrd, h.1.symm⟩
      · simp at h
  · simp at h

theorem selectedLink_ok {env : Env H C L K R} {p : Parameters} {target : URL}
    {t : List (Effect H C L K R)} {handler : H} {link : String}
    (h : selectHandler env p target = (t, .ok (handler, link))) :
    selectedLink env p target = some link := by
  rcases selectHandler_ok h with ⟨hs, _, _, rfl⟩ | ⟨hs, _, hf⟩
  · simp only [selectedLink, if_pos hs]
  · have hne : ¬ (target.Scheme = "http" ∨ target.Scheme = "https") := by
      rw [hs]; decide
    simp only [selectedLink, if_neg hne, if_pos hs, hf]

theorem selectedLink_error {env : Env H C L K R} {p : Parameters} {target : URL}
    {t : List (Effect H C L K R)} {err : Error}
    (h : selectHandler env p target = (t, .error err)) :
    selectedLink env p target = none := by
  rcases selectHandler_error h with ⟨hs, _, hf⟩ | ⟨h1, h2, h3, _, _⟩
  · have hne : ¬ (target.Scheme = "http" ∨ target.Scheme = "https") := by
      rw [hs]; decide
    rcases hfs : env.FileServer p.Path p.Slug p.Zip p.Debug with ⟨h0, link0, e0⟩
    rw [hfs] at hf
    simp only at hf
    subst hf
    simp only [selectedLink, if_neg hne, if_pos hs, hfs]
  · simp [selectedLink, h1, h2, h3]

theorem derivedKey_ok {env : Env H C L K R} {p : Parameters}
    {t1 : List (Effect H C L K R)} {nocfg : NewOnionConfig K}
    (h : keyMaterial env p = (t1, .ok nocfg)) :
    derivedKey env p = some nocfg.PrivateKey ∧
      nocfg = { PrivateKey := nocfg.PrivateKey, DiscardPK := true, AwaitForUpload := true } := by
  rcases keyMaterial_ok h with ⟨h0, _, rfl⟩ | ⟨hne, keyrd, key, hk, hg, _, rfl⟩
  · exact ⟨by simp only [derivedKey, if_pos h0], rfl⟩
  · exact ⟨by simp only [derivedKey, if_neg hne, hk, hg], rfl⟩

theorem derivedKey_error {env : Env H C L K R} {p : Parameters}
    {t1 : List (Effect H C L K R)} {err : Error}
    (h : keyMaterial env p = (t1, .error err)) : derivedKey env p = none := by
  have hp := (keyMaterial_error h).1
  unfold derivedKey
  rw [if_neg hp]
  cases hk : env.KeystreamReader (bytes p.Passphrase) (bytes "onionize-keygen") with
  | error e => rfl
  | ok rd =>
    cases hg : env.GenerateOnionKey rd "current" with
    | error e => simp only [hg]
    | ok key => simp [keyMaterial, hp, hk, hg] at h

theorem countP_isSend_of_runs {env : Env H C L K R} {p : Parameters} {r : Run H C L K R}
    (h : Runs env p r) : r.trace.countP isSend = if published env p then 1 else 0 := by
  cases h with
  | parseError err hp => simp [published, publication, hp]
  | selectError target t err hp hs =>
    have hsel := selectedLink_error hs
    rcases selectHandler_error hs with ⟨_, rfl, _⟩ | ⟨_, _, _, rfl, _⟩ <;>
      simp [published, publication, hp, hsel, isSend]
  | dialError target t handler link err hp hs hd =>
    have hsel := selectedLink_ok hs
    rcases selectHandler_ok hs with ⟨_, rfl, _, _⟩ | ⟨_, rfl, _⟩ <;>
      simp [published, publication, hp, hsel, hd, isSend]
  | authError target t handler link c err hp hs hd ha =>
    have hsel := selectedLink_ok hs
    rcases selectHandler_ok hs with ⟨_, rfl, _, _⟩ | ⟨_, rfl, _⟩ <;>
      simp [published, publication, hp, hsel, hd, ha, isSend]
  | keyError target t t1 handler link c err hp hs hd ha hk =>
    have hsel := selectedLink_ok hs
    have hkey := derivedKey_error hk
    rcases selectHandler_ok hs with ⟨_, rfl, _, _⟩ | ⟨_, rfl, _⟩ <;>
      rcases keyMaterial_error hk with ⟨_, rfl | ⟨_, rfl⟩⟩ <;>
      simp [published, publication, hp, hsel, hd, ha, hkey, isSend]
  | listenError target t t1 handler link c nocfg err hp hs hd ha hk hl =>
    have hsel := selectedLink_ok hs
    have hkey := (derivedKey_ok hk).1
    rcases selectHandler_ok hs with ⟨_, rfl, _, _⟩ | ⟨_, rfl, _⟩ <;>
      rcases keyMaterial_ok hk with ⟨_, rfl, _⟩ | ⟨_, _, _, _, _, rfl, _⟩ <;>
      simp [published, publication, hp, hsel, hd, ha, hkey, hl, isSend]
  | addrError target t t1 handler link c nocfg l hp hs hd ha hk hl hq =>
    have hsel := selectedLink_ok hs
    have hkey := (derivedKey_ok hk).1
    rcases selectHandler_ok hs with ⟨_, rfl, _, _⟩ | ⟨_, rfl, _⟩ <;>
      rcases keyMaterial_ok hk with ⟨_, rfl, _⟩ | ⟨_, _, _, _, _, rfl, _⟩ <;>
      simp [published, publication, hp, hsel, hd, ha, hkey, hl, hq, isSend]
  | createError target t t1 handler link c nocfg l tAddr err hp hs hd ha hk hl hq hn =>
    have hsel := selectedLink_ok hs
    obtain ⟨hkey, hcfg⟩ := derivedKey_ok hk
    rw [hcfg] at hn
    unfold portSpecOf at hn
    rcases selectHandler_ok hs with ⟨_, rfl, _, _⟩ | ⟨_, rfl, _⟩ <;>
      rcases keyMaterial_ok hk with ⟨_, rfl, _⟩ | ⟨_, _, _, _, _, rfl, _⟩ <;>
      simp [published, publication, hp, hsel, hd, ha, hkey, hl, hq, hn, isSend]
  | created target t t1 handler link c nocfg l tAddr oi hp hs hd ha hk hl hq hn =>
    have hsel := selectedLink_ok hs
    obtain ⟨hkey, hcfg⟩ := derivedKey_ok hk
    rw [hcfg] at hn
    unfold portSpecOf at hn
    have hpub : published env p = sendCompletes env c
        { Scheme := "http", Host := oi.OnionID ++ ".onion", Path := link } := by
      simp [published, publication, hp, hsel, hd, ha, hkey, hl, hq, hn]
    rw [hpub]
    rcases publishAndServe_cases env handler link c l oi with
      ⟨o, hps, ho, hsc⟩ | ⟨hps, hsc⟩ | ⟨o, hps, hsc⟩
    · rw [hps, hsc]
      rcases selectHandler_ok hs with ⟨_, rfl, _, _⟩ | ⟨_, rfl, _⟩ <;>
        rcases keyMaterial_ok hk with ⟨_, rfl, _⟩ | ⟨_, _, _, _, _, rfl, _⟩ <;>
        rcases ho with rfl | rfl <;>
        simp [isSend, deferredClose]
    · rw [hps, hsc]
      rcases selectHandler_ok hs with ⟨_, rfl, _, _⟩ | ⟨_, rfl, _⟩ <;>
        rcases keyMaterial_ok hk with ⟨_, rfl, _⟩ | ⟨_, _, _, _, _, rfl, _⟩ <;>
        simp [isSend, deferredClose]
    · rw [hps, hsc]
      rcases selectHandler_ok hs with ⟨_, rfl, _, _⟩ | ⟨_, rfl, _⟩ <;>
        rcases keyMaterial_ok hk with ⟨_, rfl, _⟩ | ⟨_, _, _, _, _, rfl, _⟩ <;>
        cases o <;>
        simp [isSend, deferredClose]

theorem constructors_of_runs {env : Env H C L K R} {p : Parameters} {r : Run H C L K R}
    {target : URL} (h : Runs env p r) (hparse : env.urlParse p.Path = .ok target) :
    r.trace.filter isConstructor = (selectHandler env p target).1 := by
  cases h with
  | parseError err hp => simp [hparse] at hp
  | selectError target1 t err hp hs =>
    obtain rfl : target1 = target := by simpa [hparse] using hp.symm
    rcases selectHandler_error hs with ⟨_, rfl, _⟩ | ⟨_, _, _, rfl, _⟩ <;>
      simp [hs, isConstructor]
  | dialError target1 t handler link err hp hs hd =>
    obtain rfl : target1 = target := by simpa [hparse] using hp.symm
    rcases selectHandler_ok hs with ⟨_, rfl, _, _⟩ | ⟨_, rfl, _⟩ <;>
      simp [hs, isConstructor]
  | authError target1 t handler link c err hp hs hd ha =>
    obtain rfl : target1 = target := by simpa [hparse] using hp.symm
    rcases selectHandler_ok hs with ⟨_, rfl, _, _⟩ | ⟨_, rfl, _⟩ <;>
      simp [hs, isConstructor]
  | keyError target1 t t1 handler link c err hp hs hd ha hk =>
    obtain rfl : target1 = target := by simpa [hparse] using hp.symm
    rcases selectHandler_ok hs with ⟨_, rfl, _, _⟩ | ⟨_, rfl, _⟩ <;>
      rcases keyMaterial_error hk with ⟨_, rfl | ⟨_, rfl⟩⟩ <;>
      simp [hs, isConstructor]
  | listenError target1 t t1 handler link c nocfg err hp hs hd ha hk hl =>
    obtain rfl : target1 = target := by simpa [hparse] using hp.symm
    rcases selectHandler_ok hs with ⟨_, rfl, _, _⟩ | ⟨_, rfl, _⟩ <;>
      rcases keyMaterial_ok hk with ⟨_, rfl, _⟩ | ⟨_, _, _, _, _, rfl, _⟩ <;>
      simp [hs, isConstructor]
  | addrError target1 t t1 handler link c nocfg l hp hs hd ha hk hl hq =>
    obtain rfl : target1 = target := by simpa [hparse] using hp.symm
    rcases selectHandler_ok hs with ⟨_, rfl, _, _⟩ | ⟨_, rfl, _⟩ <;>
      rcases keyMaterial_ok hk with ⟨_, rfl, _⟩ | ⟨_, _, _, _, _, rfl, _⟩ <;>
      simp [hs, isConstructor]
  | createError target1 t t1 handler link c nocfg l tAddr err hp hs hd ha hk hl hq hn =>
    obtain rfl : target1 = target := by simpa [hparse] using hp.symm
    rcases selectHandler_ok hs with ⟨_, rfl, _, _⟩ | ⟨_, rfl, _⟩ <;>
      rcases keyMaterial_ok hk with ⟨_, rfl, _⟩ | ⟨_, _, _, _, _, rfl, _⟩ <;>
      simp [hs, isConstructor]
  | created target1 t t1 handler link c nocfg l tAddr oi hp hs hd ha hk hl hq hn =>
    obtain rfl : target1 = target := by simpa [hparse] using hp.symm
    rcases tail_cases env handler link c l oi with
      ⟨hT, -⟩ | ⟨hT, -⟩ | ⟨hT, -⟩ | ⟨res1, hT, -⟩ <;>
      rw [hT] <;>
      rcases selectHandler_ok hs with ⟨_, rfl, _, _⟩ | ⟨_, rfl, _⟩ <;>
      rcases keyMaterial_ok hk with ⟨_, rfl, _⟩ | ⟨_, _, _, _, _, rfl, _⟩ <;>
      simp [hs, isConstructor]

theorem served_handler_of_runs {env : Env H C L K R} {p : Parameters} {r : Run H C L K R}
    {target : URL} {handler : H} {l : L} (h : Runs env p r)
    (hparse : env.urlParse p.Path = .ok target) (hm : .serve handler l ∈ r.trace) :
    ∃ link, (selectHandler env p target).2 = .ok (handler, link) := by
  cases h with
  | parseError err hp => simp at hm
  | selectError target1 t err hp hs =>
    rcases selectHandler_error hs with ⟨_, rfl, _⟩ | ⟨_, _, _, rfl, _⟩ <;> simp at hm
  | dialError target1 t handler1 link err hp hs hd =>
    rcases selectHandler_ok hs with ⟨_, rfl, _, _⟩ | ⟨_, rfl, _⟩ <;> simp at hm
  | authError target1 t handler1 link c err hp hs hd ha =>
    rcases selectHandler_ok hs with ⟨_, rfl, _, _⟩ | ⟨_, rfl, _⟩ <;> simp at hm
  | keyError target1 t t1 handler1 link c err hp hs hd ha hk =>
    rcases selectHandler_ok hs with ⟨_, rfl, _, _⟩ | ⟨_, rfl, _⟩ <;>
      rcases keyMaterial_error hk with ⟨_, rfl | ⟨_, rfl⟩⟩ <;> simp at hm
  | listenError target1 t t1 handler1 link c nocfg err hp hs hd ha hk hl =>
    rcases selectHandler_ok hs with ⟨_, rfl, _, _⟩ | ⟨_, rfl, _⟩ <;>
      rcases keyMaterial_ok hk with ⟨_, rfl, _⟩ | ⟨_, _, _, _, _, rfl, _⟩ <;> simp at hm
  | addrError target1 t t1 handler1 link c nocfg l1 hp hs hd ha hk hl hq =>
    rcases selectHandler_ok hs with ⟨_, rfl, _, _⟩ | ⟨_, rfl, _⟩ <;>
      rcases keyMaterial_ok hk with ⟨_, rfl, _⟩ | ⟨_, _, _, _, _, rfl, _⟩ <;> simp at hm
  | createError target1 t t1 handler1 link c nocfg l1 tAddr err hp hs hd ha hk hl hq hn =>
    rcases selectHandler_ok hs with ⟨_, rfl, _, _⟩ | ⟨_, rfl, _⟩ <;>
      rcases keyMaterial_ok hk with ⟨_, rfl, _⟩ | ⟨_, _, _, _, _, rfl, _⟩ <;> simp at hm
  | created target1 t t1 handler1 link c nocfg l1 tAddr oi hp hs hd ha hk hl hq hn =>
    obtain rfl : target1 = target := by simpa [hparse] using hp.symm
    refine ⟨link, ?_⟩
    have hh : handler = handler1 := by
      rcases tail_cases env handler1 link c l1 oi with
        ⟨hT, -⟩ | ⟨hT, -⟩ | ⟨hT, -⟩ | ⟨res1, hT, -⟩ <;>
        rw [hT] at hm <;>
        rcases selectHandler_ok hs with ⟨_, rfl, _, _⟩ | ⟨_, rfl, _⟩ <;>
        rcases keyMaterial_ok hk with ⟨_, rfl, _⟩ | ⟨_, _, _, _, _, rfl, _⟩ <;>
        simp at hm <;> exact hm.1
    rw [hs, hh]

theorem release_of_runs {env : Env H C L K R} {p : Parameters} {r : Run H C L K R}
    {res : Option Error} (h : Runs env p r) (hret : r.outcome = .returned res) :
    (∀ cp c, .dial cp ∈ r.trace → env.DialURL cp = .ok c →
        r.trace.countP isClose = 1 ∧ r.trace.getLast? = some (.close c)) ∧
      ((∀ cp, .dial cp ∈ r.trace → ∃ err, env.DialURL cp = .error err) →
        ∀ x ∈ r.trace, isSessionOp x = false) := by
  cases h with
  | parseError err hp => simp
  | selectError target t err hp hs =>
    rcases selectHandler_error hs with ⟨_, rfl, _⟩ | ⟨_, _, _, rfl, _⟩ <;>
      simp [isSessionOp]
  | dialError target t handler link err hp hs hd =>
    rcases selectHandler_ok hs with ⟨_, rfl, _, _⟩ | ⟨_, rfl, _⟩ <;>
      simp [isSessionOp, hd] <;>
      (intro cp c1 hcp hok; subst hcp; rw [hd] at hok
       cases hok)
  | authError target t handler link c err hp hs hd ha =>
    rcases selectHandler_ok hs with ⟨_, rfl, _, _⟩ | ⟨_, rfl, _⟩ <;>
      simp [isClose, hd] <;>
      (intro cp c1 hcp hok; subst hcp; rw [hd] at hok
       exact Except.ok.inj hok)
  | keyError target t t1 handler link c err hp hs hd ha hk =>
    rcases selectHandler_ok hs with ⟨_, rfl, _, _⟩ | ⟨_, rfl, _⟩ <;>
      rcases keyMaterial_error hk with ⟨_, rfl | ⟨_, rfl⟩⟩ <;>
      simp [isClose, hd] <;>
      (intro cp c1 hcp hok; subst hcp; rw [hd] at hok
       exact Except.ok.inj hok)
  | listenError target t t1 handler link c nocfg err hp hs hd ha hk hl =>
    rcases selectHandler_ok hs with ⟨_, rfl, _, _⟩ | ⟨_, rfl, _⟩ <;>
      rcases keyMaterial_ok hk with ⟨_, rfl, _⟩ | ⟨_, _, _, _, _, rfl, _⟩ <;>
      simp [isClose, hd] <;>
      (intro cp c1 hcp hok; subst hcp; rw [hd] at hok
       exact Except.ok.inj hok)
  | addrError target t t1 handler link c nocfg l hp hs hd ha hk hl hq =>
    rcases selectHandler_ok hs with ⟨_, rfl, _, _⟩ | ⟨_, rfl, _⟩ <;>
      rcases keyMaterial_ok hk with ⟨_, rfl, _⟩ | ⟨_, _, _, _, _, rfl, _⟩ <;>
      simp [isClose, hd] <;>
      (intro cp c1 hcp hok; subst hcp; rw [hd] at hok
       exact Except.ok.inj hok)
  | createError target t t1 handler link c nocfg l tAddr err hp hs hd ha hk hl hq hn =>
    rcases selectHandler_ok hs with ⟨_, rfl, _, _⟩ | ⟨_, rfl, _⟩ <;>
      rcases keyMaterial_ok hk with ⟨_, rfl, _⟩ | ⟨_, _, _, _, _, rfl, _⟩ <;>
      simp [isClose, hd] <;>
      (intro cp c1 hcp hok; subst hcp; rw [hd] at hok
       exact Except.ok.inj hok)
  | created target t t1 handler link c nocfg l tAddr oi hp hs hd ha hk hl hq hn =>
    simp only at hret
    rcases tail_cases env handler link c l oi with
      ⟨hT, hO⟩ | ⟨hT, hO⟩ | ⟨hT, hO⟩ | ⟨res1, hT, hO⟩
    · rcases hO with hO | hO <;> rw [hO] at hret <;> cases hret
    · rw [hO] at hret; cases hret
    · rcases hO with hO | hO <;> rw [hO] at hret <;> cases hret
    · rw [hT]
      rcases selectHandler_ok hs with ⟨_, rfl, _, _⟩ | ⟨_, rfl, _⟩ <;>
        rcases keyMaterial_ok hk with ⟨_, rfl, _⟩ | ⟨_, _, _, _, _, rfl, _⟩ <;>
        simp [isClose, hd] <;>
        (intro cp c1 hcp hok; subst hcp; rw [hd] at hok
         exact Except.ok.inj hok)

/-! ## Order of the calls -/

@[simp] theorem rank_reverseProxy (u : URL) :
    rank (.reverseProxy u : Effect H C L K R) = 0 := rfl

@[simp] theorem rank_fileServer (path : String) (slug zip debug : Bool) :
    rank (.fileServer path slug zip debug : Effect H C L K R) = 0 := rfl

@[simp] theorem rank_dial (cp : String) : rank (.dial cp : Effect H C L K R) = 1 := rfl

@[simp] theorem rank_debug (c : C) (b : Bool) : rank (.debug c b : Effect H C L K R) = 2 := rfl

@[simp] theorem rank_authenticate (c : C) (pw : String) :
    rank (.authenticate c pw : Effect H C L K R) = 3 := rfl

@[simp] theorem rank_keystreamReader (a b : List Nat) :
    rank (.keystreamReader a b : Effect H C L K R) = 4 := rfl

@[simp] theorem rank_generateOnionKey (rd : R) (slot : String) :
    rank (.generateOnionKey rd slot : Effect H C L K R) = 5 := rfl

@[simp] theorem rank_listen (a b : String) : rank (.listen a b : Effect H C L K R) = 6 := rfl

@[simp] theorem rank_listenerAddr (l : L) : rank (.listenerAddr l : Effect H C L K R) = 7 := rfl

@[simp] theorem rank_listenerClose (l : L) :
    rank (.listenerClose l : Effect H C L K R) = 8 := rfl

@[simp] theorem rank_newOnion (c : C) (cfg : NewOnionConfig K) :
    rank (.newOnion c cfg : Effect H C L K R) = 9 := rfl

@[simp] theorem rank_spawnWatcher (c : C) :
    rank (.spawnWatcher c : Effect H C L K R) = 10 := rfl

@[simp] theorem rank_send (u : URL) : rank (.send u : Effect H C L K R) = 11 := rfl

@[simp] theorem rank_serve (h : H) (l : L) : rank (.serve h l : Effect H C L K R) = 12 := rfl

@[simp] theorem rank_close (c : C) : rank (.close c : Effect H C L K R) = 13 := rfl

/-- The calls after the creation request are the last four positions of the
program text. -/
theorem rank_tail (env : Env H C L K R) (handler : H) (link : String) (c : C)
    (l : L) (oi : OnionInfo) :
    ∀ x ∈ (publishAndServe env handler link c l oi).trace ++
        deferredClose c (publishAndServe env handler link c l oi).outcome, 10 ≤ rank x := by
  intro x hx
  rcases tail_cases env handler link c l oi with
    ⟨hT, -⟩ | ⟨hT, -⟩ | ⟨hT, -⟩ | ⟨res, hT, -⟩ <;>
  · rw [hT] at hx
    have := List.mem_map_of_mem rank hx
    simp at this
    omega

theorem rank_of_isAuthenticated {env : Env H C L K R} {x : Effect H C L K R}
    (h : isAuthenticated env x = true) : rank x = 3 := by
  cases x <;> simp [isAuthenticated, rank] at h ⊢

theorem rank_of_isKeyDerivation {x : Effect H C L K R} (h : isKeyDerivation x = true) :
    rank x = 4 ∨ rank x = 5 := by
  cases x <;> simp [isKeyDerivation, rank] at h ⊢

theorem rank_of_isListen {x : Effect H C L K R} (h : isListen x = true) : rank x = 6 := by
  cases x <;> simp [isListen, rank] at h ⊢

theorem rank_of_isNewOnion {x : Effect H C L K R} (h : isNewOnion x = true) : rank x = 9 := by
  cases x <;> simp [isNewOnion, rank] at h ⊢

theorem rank_of_isCreated {env : Env H C L K R} {x : Effect H C L K R}
    (h : isCreated env x = true) : rank x = 9 := by
  cases x <;> simp [isCreated, rank] at h ⊢

theorem rank_of_isSend {x : Effect H C L K R} (h : isSend x = true) : rank x = 11 := by
  cases x <;> simp [isSend, rank] at h ⊢

theorem rank_of_isServe {x : Effect H C L K R} (h : isServe x = true) : rank x = 12 := by
  cases x <;> simp [isServe, rank] at h ⊢

theorem isNewOnion_of_rank {x : Effect H C L K R} (h : rank x ≠ 9) : isNewOnion x = false := by
  cases x <;> simp [isNewOnion, rank] at h ⊢

theorem isServe_of_rank {x : Effect H C L K R} (h : rank x ≠ 12) : isServe x = false := by
  cases x <;> simp [isServe, rank] at h ⊢

theorem isListen_of_rank {x : Effect H C L K R} (h : rank x ≠ 6) : isListen x = false := by
  cases x <;> simp [isListen, rank] at h ⊢

theorem isKeyDerivation_of_rank {x : Effect H C L K R} (h4 : rank x ≠ 4) (h5 : rank x ≠ 5) :
    isKeyDerivation x = false := by
  cases x <;> simp [isKeyDerivation, rank] at h4 h5 ⊢

/-- The calls of a run occur in the order of the program text, each at most
once. -/
theorem sorted_of_runs {env : Env H C L K R} {p : Parameters} {r : Run H C L K R}
    (h : Runs env p r) : r.trace.Pairwise (fun a b => rank a < rank b) := by
  have key : (r.trace.map rank).Pairwise (fun a b => a < b) := by
    cases h with
    | parseError err hp => simp
    | selectError target t err hp hs =>
      rcases selectHandler_error hs with ⟨_, rfl, _⟩ | ⟨_, _, _, rfl, _⟩ <;> simp
    | dialError target t handler link err hp hs hd =>
      rcases selectHandler_ok hs with ⟨_, rfl, _, _⟩ | ⟨_, rfl, _⟩ <;>
        simp only [List.append_assoc, List.cons_append, List.nil_append, List.map_cons,
          List.map_nil, rank] <;> decide
    | authError target t handler link c err hp hs hd ha =>
      rcases selectHandler_ok hs with ⟨_, rfl, _, _⟩ | ⟨_, rfl, _⟩ <;>
        simp only [List.append_assoc, List.cons_append, List.nil_append, List.map_cons,
          List.map_nil, rank] <;> decide
    | keyError target t t1 handler link c err hp hs hd ha hk =>
      rcases selectHandler_ok hs with ⟨_, rfl, _, _⟩ | ⟨_, rfl, _⟩ <;>
        rcases keyMaterial_error hk with ⟨_, rfl | ⟨_, rfl⟩⟩ <;>
        simp only [List.append_assoc, List.cons_append, List.nil_append, List.map_cons,
          List.map_nil, rank] <;> decide
    | listenError target t t1 handler link c nocfg err hp hs hd ha hk hl =>
      rcases selectHandler_ok hs with ⟨_, rfl, _, _⟩ | ⟨_, rfl, _⟩ <;>
        rcases keyMaterial_ok hk with ⟨_, rfl, _⟩ | ⟨_, _, _, _, _, rfl, _⟩ <;>
        simp only [List.append_assoc, List.cons_append, List.nil_append, List.map_cons,
          List.map_nil, rank] <;> decide
    | addrError target t t1 handler link c nocfg l hp hs hd ha hk hl hq =>
      rcases selectHandler_ok hs with ⟨_, rfl, _, _⟩ | ⟨_, rfl, _⟩ <;>
        rcases keyMaterial_ok hk with ⟨_, rfl, _⟩ | ⟨_, _, _, _, _, rfl, _⟩ <;>
        simp only [List.append_assoc, List.cons_append, List.nil_append, List.map_cons,
          List.map_nil, rank] <;> decide
    | createError target t t1 handler link c nocfg l tAddr err hp hs hd ha hk hl hq hn =>
      rcases selectHandler_ok hs with ⟨_, rfl, _, _⟩ | ⟨_, rfl, _⟩ <;>
        rcases keyMaterial_ok hk with ⟨_, rfl, _⟩ | ⟨_, _, _, _, _, rfl, _⟩ <;>
        simp only [List.append_assoc, List.cons_append, List.nil_append, List.map_cons,
          List.map_nil, rank] <;> decide
    | created target t t1 handler link c nocfg l tAddr oi hp hs hd ha hk hl hq hn =>
      rcases tail_cases env handler link c l oi with
        ⟨hT, -⟩ | ⟨hT, -⟩ | ⟨hT, -⟩ | ⟨res1, hT, -⟩ <;>
        rw [hT] <;>
        rcases selectHandler_ok hs with ⟨_, rfl, _, _⟩ | ⟨_, rfl, _⟩ <;>
        rcases keyMaterial_ok hk with ⟨_, rfl, _⟩ | ⟨_, _, _, _, _, rfl, _⟩ <;>
        simp only [List.append_assoc, List.cons_append, List.nil_append, List.map_cons,
          List.map_nil, rank, List.append_nil] <;> decide
  exact List.pairwise_map.mp key

theorem selectHandler_rank {env : Env H C L K R} {p : Parameters} {target : URL}
    {t : List (Effect H C L K R)} {res : Except Error (H × String)}
    (h : selectHandler env p target = (t, res)) : ∀ x ∈ t, rank x = 0 := by
  cases res with
  | error err =>
    rcases selectHandler_error h with ⟨_, rfl, _⟩ | ⟨_, _, _, rfl, _⟩ <;> simp [rank]
  | ok v =>
    obtain ⟨handler, link⟩ := v
    rcases selectHandler_ok h with ⟨_, rfl, _, _⟩ | ⟨_, rfl, _⟩ <;> simp [rank]

theorem keyMaterial_rank {env : Env H C L K R} {p : Parameters}
    {t1 : List (Effect H C L K R)} {res : Except Error (NewOnionConfig K)}
    (h : keyMaterial env p = (t1, res)) : ∀ x ∈ t1, rank x = 4 ∨ rank x = 5 := by
  cases res with
  | error err =>
    rcases keyMaterial_error h with ⟨_, rfl | ⟨_, rfl⟩⟩ <;> simp [rank]
  | ok nocfg =>
    rcases keyMaterial_ok h with ⟨_, rfl, _⟩ | ⟨_, _, _, _, _, rfl, _⟩ <;> simp [rank]

/-- A call after authentication and before the deferred close presupposes an
`Authenticate` that the daemon accepted. -/
theorem authenticated_of_runs {env : Env H C L K R} {p : Parameters} {r : Run H C L K R}
    (h : Runs env p r) {x : Effect H C L K R} (hx : x ∈ r.trace) (hlo : 4 ≤ rank x)
    (hhi : rank x ≤ 12) : ∃ y ∈ r.trace, isAuthenticated env y = true := by
  cases h with
  | parseError err hp => simp at hx
  | selectError target t err hp hs =>
    have := selectHandler_rank hs x hx
    omega
  | dialError target t handler link err hp hs hd =>
    have ht := selectHandler_rank hs x
    simp only [List.mem_append, List.mem_singleton] at hx
    rcases hx with hx | rfl
    · have := ht hx; omega
    · simp [rank] at hlo
  | authError target t handler link c err hp hs hd ha =>
    have ht := selectHandler_rank hs x
    simp only [List.mem_append, List.mem_cons, List.mem_singleton] at hx
    rcases hx with hx | rfl | rfl | rfl | rfl | hx
    · have := ht hx; omega
    · simp [rank] at hlo
    · simp [rank] at hlo
    · simp [rank] at hlo
    · simp [rank] at hhi
    · simp at hx
  | keyError target t t1 handler link c err hp hs hd ha hk =>
    exact ⟨.authenticate c p.ControlPassword, by simp, by simp [isAuthenticated, ha]⟩
  | listenError target t t1 handler link c nocfg err hp hs hd ha hk hl =>
    exact ⟨.authenticate c p.ControlPassword, by simp, by simp [isAuthenticated, ha]⟩
  | addrError target t t1 handler link c nocfg l hp hs hd ha hk hl hq =>
    exact ⟨.authenticate c p.ControlPassword, by simp, by simp [isAuthenticated, ha]⟩
  | createError target t t1 handler link c nocfg l tAddr err hp hs hd ha hk hl hq hn =>
    exact ⟨.authenticate c p.ControlPassword, by simp, by simp [isAuthenticated, ha]⟩
  | created target t t1 handler link c nocfg l tAddr oi hp hs hd ha hk hl hq hn =>
    exact ⟨.authenticate c p.ControlPassword, by simp, by simp [isAuthenticated, ha]⟩

/-- A run that contains a call from the creation request up to `Serve` got
through every step before the request; it then either ends on the refused
request and the deferred close, or goes on to publish and serve. -/
theorem reached_of_runs {env : Env H C L K R} {p : Parameters} {r : Run H C L K R}
    (h : Runs env p r) {x : Effect H C L K R} (hx : x ∈ r.trace) (hlo : 9 ≤ rank x)
    (hhi : rank x ≤ 12) :
    ∃ target t t1 handler link c nocfg l tAddr,
      env.urlParse p.Path = .ok target ∧
      selectHandler env p target = (t, .ok (handler, link)) ∧
      env.DialURL (controlPath p) = .ok c ∧
      env.Authenticate c p.ControlPassword = none ∧
      keyMaterial env p = (t1, .ok nocfg) ∧
      env.Listen "tcp4" "127.0.0.1:0" = .ok l ∧
      env.Addr l = some tAddr ∧
      ((∃ err, env.NewOnion c (requestOf nocfg tAddr) = .error err ∧ rank x = 9 ∧
          r = ⟨callsUpToPort p t t1 c l ++ [.newOnion c (requestOf nocfg tAddr), .close c],
            .returned (some ("Error occured while creating an onion service: " ++ err))⟩) ∨
        (∃ oi rest, env.NewOnion c (requestOf nocfg tAddr) = .ok oi ∧
          r.trace = callsUpToPort p t t1 c l ++ .newOnion c (requestOf nocfg tAddr) :: rest ∧
          (11 ≤ rank x →
            (.send { Scheme := "http", Host := oi.OnionID ++ ".onion", Path := link } :
              Effect H C L K R) ∈ r.trace))) := by
  cases h with
  | parseError err hp => simp at hx
  | selectError target t err hp hs =>
    have := selectHandler_rank hs x hx
    omega
  | dialError target t handler link err hp hs hd =>
    simp only [List.mem_append] at hx
    rcases hx with hx | hx
    · have := selectHandler_rank hs x hx; omega
    · have := List.mem_map_of_mem rank hx; simp at this; omega
  | authError target t handler link c err hp hs hd ha =>
    simp only [List.mem_append] at hx
    rcases hx with hx | hx
    · have := selectHandler_rank hs x hx; omega
    · have := List.mem_map_of_mem rank hx; simp at this; omega
  | keyError target t t1 handler link c err hp hs hd ha hk =>
    simp only [List.mem_append] at hx
    rcases hx with ((hx | hx) | hx) | hx
    · have := selectHandler_rank hs x hx; omega
    · have := List.mem_map_of_mem rank hx; simp at this; omega
    · have := keyMaterial_rank hk x hx; omega
    · have := List.mem_map_of_mem rank hx; simp at this; omega
  | listenError target t t1 handler link c nocfg err hp hs hd ha hk hl =>
    simp only [List.mem_append] at hx
    rcases hx with ((hx | hx) | hx) | hx
    · have := selectHandler_rank hs x hx; omega
    · have := List.mem_map_of_mem rank hx; simp at this; omega
    · have := keyMaterial_rank hk x hx; omega
    · have := List.mem_map_of_mem rank hx; simp at this; omega
  | addrError target t t1 handler link c nocfg l hp hs hd ha hk hl hq =>
    simp only [List.mem_append] at hx
    rcases hx with ((hx | hx) | hx) | hx
    · have := selectHandler_rank hs x hx; omega
    · have := List.mem_map_of_mem rank hx; simp at this; omega
    · have := keyMaterial_rank hk x hx; omega
    · have := List.mem_map_of_mem rank hx; simp at this; omega
  | createError target t t1 handler link c nocfg l tAddr err hp hs hd ha hk hl hq hn =>
    refine ⟨target, t, t1, handler, link, c, nocfg, l, tAddr, hp, hs, hd, ha, hk, hl, hq,
      .inl ⟨err, hn, ?_, ?_⟩⟩
    · simp only [List.mem_append] at hx
      rcases hx with ((hx | hx) | hx) | hx
      · have := selectHandler_rank hs x hx; omega
      · have := List.mem_map_of_mem rank hx; simp at this; omega
      · have := keyMaterial_rank hk x hx; omega
      · have := List.mem_map_of_mem rank hx; simp at this; omega
    · simp [callsUpToPort, requestOf]
  | created target t t1 handler link c nocfg l tAddr oi hp hs hd ha hk hl hq hn =>
    refine ⟨target, t, t1, handler, link, c, nocfg, l, tAddr, hp, hs, hd, ha, hk, hl, hq,
      .inr ⟨oi, (publishAndServe env handler link c l oi).trace ++
        deferredClose c (publishAndServe env handler link c l oi).outcome, hn, ?_, ?_⟩⟩
    · simp [callsUpToPort, requestOf]
    · intro h11
      rcases tail_cases env handler link c l oi with
        ⟨hT, -⟩ | ⟨hT, -⟩ | ⟨hT, -⟩ | ⟨res1, hT, -⟩
      · rw [hT] at hx
        simp only [List.mem_append] at hx
        rcases hx with (((hx | hx) | hx) | hx) | hx
        · have := selectHandler_rank hs x hx; omega
        · have := List.mem_map_of_mem rank hx; simp at this; omega
        · have := keyMaterial_rank hk x hx; omega
        · have := List.mem_map_of_mem rank hx; simp at this; omega
        · have := List.mem_map_of_mem rank hx; simp at this; omega
      · rw [hT]; simp
      · rw [hT]; simp
      · rw [hT]; simp

/-- In a run, two calls at the same position of the program text are the same
call. -/
theorem eq_of_rank_eq {t : List (Effect H C L K R)}
    (hsorted : t.Pairwise (fun a b => rank a < rank b)) {x y : Effect H C L K R}
    (hx : x ∈ t) (hy : y ∈ t) (hr : rank x = rank y) : x = y := by
  induction t with
  | nil => simp at hx
  | cons a t ih =>
    rw [List.pairwise_cons] at hsorted
    rcases List.mem_cons.mp hx with rfl | hx1 <;> rcases List.mem_cons.mp hy with rfl | hy1
    · rfl
    · have := hsorted.1 y hy1; omega
    · have := hsorted.1 x hx1; omega
    · exact ih hsorted.2 hx1 hy1

/-- A run splits around a call of a given position in one way only. -/
theorem split_unique {pre post : List (Effect H C L K R)} {x y : Effect H C L K R} :
    ∀ {A B : List (Effect H C L K R)},
      (A ++ y :: B).Pairwise (fun a b => rank a < rank b) →
      pre ++ x :: post = A ++ y :: B → rank x = rank y → pre = A ∧ x = y ∧ post = B := by
  induction pre with
  | nil =>
    intro A B hsorted h hr
    cases A with
    | nil =>
      simp only [List.nil_append, List.cons.injEq] at h
      exact ⟨rfl, h.1, h.2⟩
    | cons a A =>
      simp only [List.nil_append, List.cons_append, List.cons.injEq] at h
      rw [List.cons_append, List.pairwise_cons] at hsorted
      have := hsorted.1 y (by simp)
      rw [← h.1] at this
      omega
  | cons z pre ih =>
    intro A B hsorted h hr
    cases A with
    | nil =>
      simp only [List.nil_append, List.cons_append, List.cons.injEq] at h
      rw [List.nil_append, List.pairwise_cons] at hsorted
      have := hsorted.1 x (by rw [← h.2]; simp)
      omega
    | cons a A =>
      simp only [List.cons_append, List.cons.injEq] at h
      rw [List.cons_append, List.pairwise_cons] at hsorted
      obtain ⟨h1, h2, h3⟩ := ih hsorted.2 h.2 hr
      exact ⟨by rw [h.1, h1], h2, h3⟩

theorem mem_pre_of_rank_lt {t pre post : List (Effect H C L K R)} {x y : Effect H C L K R}
    (hsorted : t.Pairwise (fun a b => rank a < rank b)) (hsplit : t = pre ++ x :: post)
    (hy : y ∈ t) (hlt : rank y < rank x) : y ∈ pre := by
  subst hsplit
  rw [List.pairwise_append] at hsorted
  obtain ⟨_, hx, _⟩ := hsorted
  rw [List.pairwise_cons] at hx
  rcases List.mem_append.mp hy with hpre | hrest
  · exact hpre
  · rcases List.mem_cons.mp hrest with rfl | hpost
    · exact absurd hlt (lt_irrefl _)
    · exact absurd (hx.1 y hpost) (not_lt.mpr hlt.le)

theorem rank_lt_of_mem_pre {t pre post : List (Effect H C L K R)} {x y : Effect H C L K R}
    (hsorted : t.Pairwise (fun a b => rank a < rank b)) (hsplit : t = pre ++ x :: post)
    (hy : y ∈ pre) : rank y < rank x := by
  subst hsplit
  rw [List.pairwise_append] at hsorted
  exact hsorted.2.2 y hy x (List.mem_cons_self _ _)

theorem rank_lt_of_mem_post {t pre post : List (Effect H C L K R)} {x y : Effect H C L K R}
    (hsorted : t.Pairwise (fun a b => rank a < rank b)) (hsplit : t = pre ++ x :: post)
    (hy : y ∈ post) : rank x < rank y := by
  subst hsplit
  rw [List.pairwise_append] at hsorted
  obtain ⟨_, hx, _⟩ := hsorted
  rw [List.pairwise_cons] at hx
  exact hx.1 y hy

/-- A creation request found in a run is the one `Onionize` builds from the
key material and the listener's address, on the session the dial returned. -/
theorem request_of_runs {env : Env H C L K R} {p : Parameters} {r : Run H C L K R}
    (h : Runs env p r) {c : C} {cfg : NewOnionConfig K} (hm : .newOnion c cfg ∈ r.trace) :
    ∃ target t t1 handler link nocfg l tAddr,
      env.urlParse p.Path = .ok target ∧
      selectHandler env p target = (t, .ok (handler, link)) ∧
      env.DialURL (controlPath p) = .ok c ∧
      env.Authenticate c p.ControlPassword = none ∧
      keyMaterial env p = (t1, .ok nocfg) ∧
      env.Listen "tcp4" "127.0.0.1:0" = .ok l ∧
      env.Addr l = some tAddr ∧
      cfg = requestOf nocfg tAddr ∧
      ((∃ err, env.NewOnion c cfg = .error err ∧
          r = ⟨callsUpToPort p t t1 c l ++ [.newOnion c cfg, .close c],
            .returned (some ("Error occured while creating an onion service: " ++ err))⟩) ∨
        (∃ oi rest, env.NewOnion c cfg = .ok oi ∧
          r.trace = callsUpToPort p t t1 c l ++ .newOnion c cfg :: rest)) := by
  obtain ⟨target, t, t1, handler, link, c1, nocfg, l, tAddr, hp, hs, hd, ha, hk, hl, hq,
    halt⟩ := reached_of_runs h hm (by simp) (by simp)
  have hmem : (.newOnion c1 (requestOf nocfg tAddr) : Effect H C L K R) ∈ r.trace := by
    rcases halt with ⟨err, _, _, hrun⟩ | ⟨oi, rest, _, hrun, _⟩ <;> (rw [hrun]; simp)
  have heq := eq_of_rank_eq (sorted_of_runs h) hm hmem (by simp)
  simp only [Effect.newOnion.injEq] at heq
  obtain ⟨rfl, rfl⟩ := heq
  refine ⟨target, t, t1, handler, link, nocfg, l, tAddr, hp, hs, hd, ha, hk, hl, hq, rfl, ?_⟩
  rcases halt with ⟨err, hn, _, hrun⟩ | ⟨oi, rest, hn, hrun, _⟩
  · exact .inl ⟨err, hn, hrun⟩
  · exact .inr ⟨oi, rest, hn, hrun⟩

theorem uint64_of_port {n : Int} (h0 : 0 ≤ n) (h1 : n ≤ 65535) : uint64 n = n.toNat := by
  unfold uint64
  rw [Int.emod_eq_of_lt h0 (by omega)]

theorem FormatUint_ten (n : Nat) : FormatUint n 10 = Nat.repr n := rfl

theorem rank_callsUpToPort {env : Env H C L K R} {p : Parameters} {target : URL}
    {t t1 : List (Effect H C L K R)} {res : Except Error (H × String)}
    {res1 : Except Error (NewOnionConfig K)} (c : C) (l : L)
    (hs : selectHandler env p target = (t, res)) (hk : keyMaterial env p = (t1, res1)) :
    ∀ x ∈ callsUpToPort p t t1 c l, rank x ≤ 7 := by
  intro x hx
  simp only [callsUpToPort, List.mem_append] at hx
  rcases hx with ((hx | hx) | hx) | hx
  · have := selectHandler_rank hs x hx; omega
  · have := List.mem_map_of_mem rank hx; simp at this; omega
  · have := keyMaterial_rank hk x hx; omega
  · have := List.mem_map_of_mem rank hx; simp at this; omega

/-- A run that calls the key derivation has a passphrase. -/
theorem passphrase_of_runs {env : Env H C L K R} {p : Parameters} {r : Run H C L K R}
    (h : Runs env p r) {x : Effect H C L K R} (hx : x ∈ r.trace) (hlo : 4 ≤ rank x)
    (hhi : rank x ≤ 5) : p.Passphrase ≠ "" := by
  cases h with
  | parseError err hp => simp at hx
  | selectError target t err hp hs =>
    have := selectHandler_rank hs x hx
    omega
  | dialError target t handler link err hp hs hd =>
    simp only [List.mem_append] at hx
    rcases hx with hx | hx
    · have := selectHandler_rank hs x hx; omega
    · have := List.mem_map_of_mem rank hx; simp at this; omega
  | authError target t handler link c err hp hs hd ha =>
    simp only [List.mem_append] at hx
    rcases hx with hx | hx
    · have := selectHandler_rank hs x hx; omega
    · have := List.mem_map_of_mem rank hx; simp at this; omega
  | keyError target t t1 handler link c err hp hs hd ha hk =>
    exact (keyMaterial_error hk).1
  | listenError target t t1 handler link c nocfg err hp hs hd ha hk hl =>
    simp only [List.mem_append] at hx
    rcases hx with ((hx | hx) | hx) | hx
    · have := selectHandler_rank hs x hx; omega
    · have := List.mem_map_of_mem rank hx; simp at this; omega
    · rcases keyMaterial_ok hk with ⟨_, rfl, _⟩ | ⟨hpass, _⟩
      · simp at hx
      · exact hpass
    · have := List.mem_map_of_mem rank hx; simp at this; omega
  | addrError target t t1 handler link c nocfg l hp hs hd ha hk hl hq =>
    simp only [List.mem_append] at hx
    rcases hx with ((hx | hx) | hx) | hx
    · have := selectHandler_rank hs x hx; omega
    · have := List.mem_map_of_mem rank hx; simp at this; omega
    · rcases keyMaterial_ok hk with ⟨_, rfl, _⟩ | ⟨hpass, _⟩
      · simp at hx
      · exact hpass
    · have := List.mem_map_of_mem rank hx; simp at this; omega
  | createError target t t1 handler link c nocfg l tAddr err hp hs hd ha hk hl hq hn =>
    simp only [List.mem_append] at hx
    rcases hx with ((hx | hx) | hx) | hx
    · have := selectHandler_rank hs x hx; omega
    · have := List.mem_map_of_mem rank hx; simp at this; omega
    · rcases keyMaterial_ok hk with ⟨_, rfl, _⟩ | ⟨hpass, _⟩
      · simp at hx
      · exact hpass
    · have := List.mem_map_of_mem rank hx; simp at this; omega
  | created target t t1 handler link c nocfg l tAddr oi hp hs hd ha hk hl hq hn =>
    have htail := rank_tail env handler link c l oi
    generalize (publishAndServe env handler link c l oi).trace ++
      deferredClose c (publishAndServe env handler link c l oi).outcome = tail at hx htail
    simp only [List.mem_append] at hx
    rcases hx with (((hx | hx) | hx) | hx) | hx
    · have := selectHandler_rank hs x hx; omega
    · have := List.mem_map_of_mem rank hx; simp at this; omega
    · rcases keyMaterial_ok hk with ⟨_, rfl, _⟩ | ⟨hpass, _⟩
      · simp at hx
      · exact hpass
    · have := List.mem_map_of_mem rank hx; simp at this; omega
    · have := htail x hx; omega

/-- A run that closes the listener is the one that failed to read the port. -/
theorem listenerClose_of_runs {env : Env H C L K R} {p : Parameters} {r : Run H C L K R}
    (h : Runs env p r) {x : Effect H C L K R} (hm : x ∈ r.trace) (hr : rank x = 8) :
    ∃ l, x = .listenerClose l ∧ env.Listen "tcp4" "127.0.0.1:0" = .ok l ∧ env.Addr l = none ∧
      r.outcome = .returned (some "Failed to extract local port") ∧
      ∀ y ∈ r.trace, rank y ≠ 9 := by
  cases h with
  | parseError err hp => simp at hm
  | selectError target t err hp hs =>
    have := selectHandler_rank hs x hm
    omega
  | dialError target t handler link err hp hs hd =>
    simp only [List.mem_append] at hm
    rcases hm with hx | hx
    · have := selectHandler_rank hs x hx; omega
    · have := List.mem_map_of_mem rank hx; simp at this; omega
  | authError target t handler link c err hp hs hd ha =>
    simp only [List.mem_append] at hm
    rcases hm with hx | hx
    · have := selectHandler_rank hs x hx; omega
    · have := List.mem_map_of_mem rank hx; simp at this; omega
  | keyError target t t1 handler link c err hp hs hd ha hk =>
    simp only [List.mem_append] at hm
    rcases hm with ((hx | hx) | hx) | hx
    · have := selectHandler_rank hs x hx; omega
    · have := List.mem_map_of_mem rank hx; simp at this; omega
    · have := keyMaterial_rank hk x hx; omega
    · have := List.mem_map_of_mem rank hx; simp at this; omega
  | listenError target t t1 handler link c nocfg err hp hs hd ha hk hl =>
    simp only [List.mem_append] at hm
    rcases hm with ((hx | hx) | hx) | hx
    · have := selectHandler_rank hs x hx; omega
    · have := List.mem_map_of_mem rank hx; simp at this; omega
    · have := keyMaterial_rank hk x hx; omega
    · have := List.mem_map_of_mem rank hx; simp at this; omega
  | addrError target t t1 handler link c nocfg l1 hp hs hd ha hk hl hq =>
    refine ⟨l1, ?_, hl, hq, rfl, ?_⟩
    · simp only [List.mem_append] at hm
      rcases hm with ((hx | hx) | hx) | hx
      · have := selectHandler_rank hs x hx; omega
      · have := List.mem_map_of_mem rank hx; simp at this; omega
      · have := keyMaterial_rank hk x hx; omega
      · simp only [List.mem_cons, List.mem_singleton, List.not_mem_nil, or_false] at hx
        rcases hx with rfl | rfl | rfl | rfl
        · simp at hr
        · simp at hr
        · rfl
        · simp at hr
    · intro y hy
      simp only [List.mem_append] at hy
      rcases hy with ((hx | hx) | hx) | hx
      · have := selectHandler_rank hs y hx; omega
      · have := List.mem_map_of_mem rank hx; simp at this; omega
      · have := keyMaterial_rank hk y hx; omega
      · have := List.mem_map_of_mem rank hx; simp at this; omega
  | createError target t t1 handler link c nocfg l1 tAddr err hp hs hd ha hk hl hq hn =>
    simp only [List.mem_append] at hm
    rcases hm with ((hx | hx) | hx) | hx
    · have := selectHandler_rank hs x hx; omega
    · have := List.mem_map_of_mem rank hx; simp at this; omega
    · have := keyMaterial_rank hk x hx; omega
    · have := List.mem_map_of_mem rank hx; simp at this; omega
  | created target t t1 handler link c nocfg l1 tAddr oi hp hs hd ha hk hl hq hn =>
    have htail := rank_tail env handler link c l1 oi
    generalize (publishAndServe env handler link c l1 oi).trace ++
      deferredClose c (publishAndServe env handler link c l1 oi).outcome = tail at hm htail
    simp only [List.mem_append] at hm
    rcases hm with (((hx | hx) | hx) | hx) | hx
    · have := selectHandler_rank hs x hx; omega
    · have := List.mem_map_of_mem rank hx; simp at this; omega
    · have := keyMaterial_rank hk x hx; omega
    · have := List.mem_map_of_mem rank hx; simp at this; omega
    · have := htail x hx; omega

theorem isListenerClose_of_rank {x : Effect H C L K R} (h : rank x ≠ 8) :
    isListenerClose x = false := by
  cases x <;> simp [isListenerClose] at h ⊢

theorem isSend_of_rank {x : Effect H C L K R} (h : rank x ≠ 11) : isSend x = false := by
  cases x <;> simp [isSend] at h ⊢

/-- The private key of a creation request found in a run: none without a
passphrase, the derived key with one. -/
theorem privateKey_of_runs {env : Env H C L K R} {p : Parameters} {r : Run H C L K R}
    (h : Runs env p r) {c : C} {cfg : NewOnionConfig K} (hm : .newOnion c cfg ∈ r.trace) :
    (p.Passphrase = "" ∧ cfg.PrivateKey = none) ∨
      (p.Passphrase ≠ "" ∧ ∃ keyrd key,
        env.KeystreamReader (bytes p.Passphrase) (bytes "onionize-keygen") = .ok keyrd ∧
        env.GenerateOnionKey keyrd "current" = .ok key ∧ cfg.PrivateKey = some key) := by
  obtain ⟨target, t, t1, handler, link, nocfg, l, tAddr, hp, hs, hd, ha, hk, hl, hq, rfl, _⟩ :=
    request_of_runs h hm
  rcases keyMaterial_ok hk with ⟨h0, _, rfl⟩ | ⟨hpass, keyrd, key, hks, hgen, _, rfl⟩
  · exact .inl ⟨h0, rfl⟩
  · exact .inr ⟨hpass, keyrd, key, hks, hgen, rfl⟩

/-! ## The claims -/

/-- C1. Handler selection.  When the target parses to a URL with scheme `http`
or `https`, the switch selects `OnionReverseHTTPProxy` of exactly that URL (with
an empty link), the only handler constructor the run calls is that one (so
`FileServer` is never called), and a `Serve` of the run serves that handler.
When the target parses with an empty scheme, the only constructor call of the
run is `FileServer(p.Path, p.Slug, p.Zip, p.Debug)`, on the unmodified path and
the caller's flags; the handler and link selected are the ones it returns
whenever it returns no error, and a `Serve` of the run serves that handler. -/
theorem C1_handler_selection (env : Env H C L K R) (p : Parameters) (target : URL)
    (hparse : env.urlParse p.Path = .ok target) :
    (target.Scheme = "http" ∨ target.Scheme = "https" →
      selectHandler env p target =
        ([.reverseProxy target], .ok (env.OnionReverseHTTPProxy target, "")) ∧
      (Onionize env p).trace.filter isConstructor = [.reverseProxy target] ∧
      ∀ handler l, .serve handler l ∈ (Onionize env p).trace →
        handler = env.OnionReverseHTTPProxy target) ∧
    (target.Scheme = "" →
      (Onionize env p).trace.filter isConstructor =
        [.fileServer p.Path p.Slug p.Zip p.Debug] ∧
      ((env.FileServer p.Path p.Slug p.Zip p.Debug).2.2 = none →
        selectHandler env p target =
          ([.fileServer p.Path p.Slug p.Zip p.Debug],
            .ok ((env.FileServer p.Path p.Slug p.Zip p.Debug).1,
              (env.FileServer p.Path p.Slug p.Zip p.Debug).2.1))) ∧
      ∀ handler l, .serve handler l ∈ (Onionize env p).trace →
        handler = (env.FileServer p.Path p.Slug p.Zip p.Debug).1) := by
  have hruns := Onionize_runs env p
  constructor
  · intro hscheme
    have hsel : selectHandler env p target =
        ([.reverseProxy target], .ok (env.OnionReverseHTTPProxy target, "")) := by
      simp only [selectHandler, if_pos hscheme]
    refine ⟨hsel, ?_, ?_⟩
    · rw [constructors_of_runs hruns hparse, hsel]
    · intro handler l hm
      obtain ⟨link, hl⟩ := served_handler_of_runs hruns hparse hm
      rw [hsel] at hl
      simp only [Except.ok.injEq, Prod.mk.injEq] at hl
      exact hl.1.symm
  · intro hscheme
    have hne : ¬ (target.Scheme = "http" ∨ target.Scheme = "https") := by
      rw [hscheme]; decide
    have hfst : (selectHandler env p target).1 = [.fileServer p.Path p.Slug p.Zip p.Debug] := by
      simp only [selectHandler, if_neg hne, if_pos hscheme]
      split <;> rfl
    refine ⟨?_, ?_, ?_⟩
    · rw [constructors_of_runs hruns hparse, hfst]
    · intro hnone
      simp only [selectHandler, if_neg hne, if_pos hscheme]
      split
      · next hf => rw [hf]
      · next hf => rw [hf] at hnone; simp at hnone
    · intro handler l hm
      obtain ⟨link, hl⟩ := served_handler_of_runs hruns hparse hm
      simp only [selectHandler, if_neg hne, if_pos hscheme] at hl
      split at hl
      · next hf =>
        simp only [Except.ok.injEq, Prod.mk.injEq] at hl
        rw [hf]; exact hl.1.symm
      · simp at hl

/-- C2. When the target parses to a URL whose scheme is neither `http`, `https`
nor empty, `Onionize` returns the error `Unsupported target type: <scheme>` and
the run performs no call at all: its trace is empty. -/
theorem C2_unsupported_scheme (env : Env H C L K R) (p : Parameters) (target : URL)
    (hparse : env.urlParse p.Path = .ok target)
    (hhttp : target.Scheme ≠ "http") (hhttps : target.Scheme ≠ "https")
    (hempty : target.Scheme ≠ "") :
    Onionize env p =
      ⟨[], .returned (some ("Unsupported target type: " ++ target.Scheme))⟩ := by
  have hsel : selectHandler env p target =
      ([], .error ("Unsupported target type: " ++ target.Scheme)) := by
    simp [selectHandler, hhttp, hhttps, hempty]
  simp only [Onionize, hparse, hsel]

/-- C3, as amended.  The number of values sent on `linkChan` in a run is one
when every step up to and including service creation succeeds and the send
completes (the watcher has not ended the process before it and a reader takes
the value), and zero otherwise; so no run sends more than one value, and a run
in which one of those steps fails sends none. -/
theorem C3_send_count (env : Env H C L K R) (p : Parameters) :
    ((Onionize env p).trace.countP isSend =
        if provisioned env p && published env p then 1 else 0) ∧
      (Onionize env p).trace.countP isSend ≤ 1 ∧
      (provisioned env p = false → (Onionize env p).trace.countP isSend = 0) := by
  have hcount := countP_isSend_of_runs (Onionize_runs env p)
  have himp : published env p = true → provisioned env p = true := by
    unfold published provisioned
    cases publication env p <;> simp
  cases hpub : published env p with
  | false =>
    rw [hpub] at hcount
    simp [hcount]
  | true =>
    rw [hpub] at hcount
    simp [hcount, himp hpub]

/-- C3 as first stated fails when the caller never reads `linkChan`: every step
up to and including service creation succeeds, and no value is sent. -/
theorem C3_send_count_counterexample :
    provisioned unreadEnv demoFiles = true ∧
      (Onionize unreadEnv demoFiles).trace.countP isSend = 0 ∧
      ¬ ((Onionize unreadEnv demoFiles).trace.countP isSend =
        if provisioned unreadEnv demoFiles then 1 else 0) := by
  decide

/-- C1, on the two demo targets: the proxy run calls only the proxy constructor,
on the parsed URL; the file run calls only `FileServer`, on the raw path. -/
theorem C1_handler_selection_witness :
    (Onionize demoEnv demoProxy).trace.filter isConstructor =
        [.reverseProxy { Scheme := "https", Host := "example.org" }] ∧
      (Onionize demoEnv demoFiles).trace.filter isConstructor =
        [.fileServer "/srv/www" true false false] :=
  ⟨((C1_handler_selection demoEnv demoProxy { Scheme := "https", Host := "example.org" }
      (by decide)).1 (by decide)).2.1,
    ((C1_handler_selection demoEnv demoFiles { Path := "/srv/www" } (by decide)).2
      (by decide)).1⟩

/-- C2, on the target `ftp://x`. -/
theorem C2_unsupported_scheme_witness :
    Onionize demoEnv demoFtp = ⟨[], .returned (some ("Unsupported target type: " ++ "ftp"))⟩ :=
  C2_unsupported_scheme demoEnv demoFtp { Scheme := "ftp", Host := "x" }
    (by decide) (by decide) (by decide) (by decide)

/-- C3, on the demo runs: one value sent when everything succeeds and the
caller reads the channel; none when the daemon refuses the service, when the
target is unsupported, when nobody reads the channel, or when the watcher ends
the process before the send. -/
theorem C3_send_count_witness :
    (Onionize demoEnv demoFiles).trace.countP isSend = 1 ∧
      (Onionize refusingEnv demoFiles).trace.countP isSend = 0 ∧
      (Onionize demoEnv demoFtp).trace.countP isSend = 0 ∧
      (Onionize unreadEnv demoFiles).trace.countP isSend = 0 ∧
      (Onionize lostEnv demoFiles).trace.countP isSend = 0 :=
  ⟨(C3_send_count demoEnv demoFiles).1.trans (by decide),
    (C3_send_count refusingEnv demoFiles).2.2 (by decide),
    (C3_send_count demoEnv demoFtp).2.2 (by decide),
    (C3_send_count unreadEnv demoFiles).1.trans (by decide),
    (C3_send_count lostEnv demoFiles).1.trans (by decide)⟩

/-- C4. With a supported target and a control connection that succeeds, when
`Authenticate(p.ControlPassword)` returns an error the run is exactly: the
handler constructor, the dial, `Debug`, the failed `Authenticate`, the deferred
`Close`; it returns `Authentication failed: <error>`, and it contains no key
derivation, no listener bind, no service-creation request and no send. -/
theorem C4_authentication_failure (env : Env H C L K R) (p : Parameters) (target : URL)
    (t : List (Effect H C L K R)) (handler : H) (link : String) (c : C) (err : Error)
    (hparse : env.urlParse p.Path = .ok target)
    (hsel : selectHandler env p target = (t, .ok (handler, link)))
    (hdial : env.DialURL (controlPath p) = .ok c)
    (hauth : env.Authenticate c p.ControlPassword = some err) :
    Onionize env p =
        ⟨t ++ [.dial (controlPath p), .debug c p.Debug, .authenticate c p.ControlPassword,
            .close c],
          .returned (some ("Authentication failed: " ++ err))⟩ ∧
      ∀ x ∈ (Onionize env p).trace,
        isKeyDerivation x = false ∧ isListen x = false ∧ isNewOnion x = false ∧
          isSend x = false := by
  have hrun : Onionize env p =
      ⟨t ++ [.dial (controlPath p), .debug c p.Debug, .authenticate c p.ControlPassword,
          .close c],
        .returned (some ("Authentication failed: " ++ err))⟩ := by
    unfold controlPath at hdial
    simp [Onionize, hparse, hsel, hdial, session, hauth, deferredClose, controlPath]
  refine ⟨hrun, ?_⟩
  rw [hrun]
  rcases selectHandler_ok hsel with ⟨_, rfl, _, _⟩ | ⟨_, rfl, _⟩ <;>
    simp [isKeyDerivation, isListen, isNewOnion, isSend]

/-- C4, on the demo host with a wrong control password. -/
theorem C4_authentication_failure_witness :
    Onionize demoEnv demoBadAuth =
        ⟨[.fileServer "/srv/www" true false false] ++
          [.dial (controlPath demoBadAuth), .debug 1 demoBadAuth.Debug,
            .authenticate 1 demoBadAuth.ControlPassword, .close 1],
          .returned (some ("Authentication failed: " ++ "515 Bad password"))⟩ ∧
      ∀ x ∈ (Onionize demoEnv demoBadAuth).trace,
        isKeyDerivation x = false ∧ isListen x = false ∧ isNewOnion x = false ∧
          isSend x = false :=
  C4_authentication_failure demoEnv demoBadAuth { Path := "/srv/www" }
    [.fileServer "/srv/www" true false false] "files under /srv/www" "/mfrggzdfmztwq2lk" 1
    "515 Bad password" (by decide) (by decide) (by decide) (by decide)

/-- C5. In a run that returns: when the dial of the control channel succeeded,
the session's `Close` occurs exactly once and is the last call of the run; when
no dial succeeded (the run returned before the dial, or the dial failed), the
run contains no operation on a session, `Close` included. -/
theorem C5_session_release (env : Env H C L K R) (p : Parameters) (res : Option Error)
    (hret : (Onionize env p).outcome = .returned res) :
    (∀ cp c, .dial cp ∈ (Onionize env p).trace → env.DialURL cp = .ok c →
        (Onionize env p).trace.countP isClose = 1 ∧
          (Onionize env p).trace.getLast? = some (.close c)) ∧
      ((∀ cp, .dial cp ∈ (Onionize env p).trace → ∃ err, env.DialURL cp = .error err) →
        ∀ x ∈ (Onionize env p).trace, isSessionOp x = false) :=
  release_of_runs (Onionize_runs env p) hret

/-- C5, on a run whose `Serve` returns: session 1 is closed once, last. -/
theorem C5_session_release_witness :
    (Onionize closingEnv demoFiles).outcome =
        .returned (some "Cannot serve HTTP: http: Server closed") ∧
      (Onionize closingEnv demoFiles).trace.countP isClose = 1 ∧
      (Onionize closingEnv demoFiles).trace.getLast? = some (.close 1) :=
  ⟨by decide,
    (C5_session_release closingEnv demoFiles (some "Cannot serve HTTP: http: Server closed")
      (by decide)).1 "default://" 1 (by decide) (by decide)⟩

/-- C6. Order of the calls of a run.  Split the run at any call `x`:
* if `x` is a key derivation call or the listener bind, an `Authenticate` that
  the daemon accepted occurs before it and no creation request does;
* if `x` is the creation request, the listener bind occurs before it, the key
  derivation too when a passphrase is set, and neither occurs after it;
* if `x` is the send on `linkChan`, a creation request that succeeded occurs
  before it and no `Serve` does;
* if `x` is the `Serve`, the send occurs before it. -/
theorem C6_effect_order (env : Env H C L K R) (p : Parameters)
    (pre post : List (Effect H C L K R)) (x : Effect H C L K R)
    (hsplit : (Onionize env p).trace = pre ++ x :: post) :
    ((isKeyDerivation x = true ∨ isListen x = true) →
      (∃ y ∈ pre, isAuthenticated env y = true) ∧ ∀ y ∈ pre, isNewOnion y = false) ∧
    (isNewOnion x = true →
      (∃ y ∈ pre, isListen y = true) ∧
      (p.Passphrase ≠ "" → ∃ y ∈ pre, isKeyDerivation y = true) ∧
      ∀ y ∈ post, isKeyDerivation y = false ∧ isListen y = false) ∧
    (isSend x = true →
      (∃ y ∈ pre, isCreated env y = true) ∧ ∀ y ∈ pre, isServe y = false) ∧
    (isServe x = true → ∃ y ∈ pre, isSend y = true) := by
  have hruns := Onionize_runs env p
  have hsorted := sorted_of_runs hruns
  have hx : x ∈ (Onionize env p).trace := by rw [hsplit]; simp
  refine ⟨?_, ?_, ?_, ?_⟩
  · intro hk
    have hr : 4 ≤ rank x ∧ rank x ≤ 6 := by
      rcases hk with hk | hk
      · have := rank_of_isKeyDerivation hk; omega
      · have := rank_of_isListen hk; omega
    obtain ⟨y, hy, hauth⟩ := authenticated_of_runs hruns hx hr.1 (by omega)
    have hry := rank_of_isAuthenticated hauth
    refine ⟨⟨y, mem_pre_of_rank_lt hsorted hsplit hy (by omega), hauth⟩, fun z hz => ?_⟩
    have := rank_lt_of_mem_pre hsorted hsplit hz
    exact isNewOnion_of_rank (by omega)
  · intro hn
    have hr := rank_of_isNewOnion hn
    obtain ⟨target, t, t1, handler, link, c, nocfg, l, tAddr, hp, hs, hd, ha, hk, hl, hq,
      halt⟩ := reached_of_runs hruns hx (by omega) (by omega)
    have htr : ∃ rest, (Onionize env p).trace = callsUpToPort p t t1 c l ++ rest := by
      rcases halt with ⟨err, _, _, hrun⟩ | ⟨oi, rest, _, hrun, _⟩
      · rw [hrun]; exact ⟨_, rfl⟩
      · exact ⟨_, hrun⟩
    obtain ⟨rest, htr⟩ := htr
    have hlisten : (.listen "tcp4" "127.0.0.1:0" : Effect H C L K R) ∈
        (Onionize env p).trace := by
      rw [htr]; simp [callsUpToPort]
    refine ⟨⟨_, mem_pre_of_rank_lt hsorted hsplit hlisten (by simp [hr]), rfl⟩, ?_, ?_⟩
    · intro hpass
      rcases keyMaterial_ok hk with ⟨h0, _, _⟩ | ⟨_, keyrd, key, _, _, rfl, _⟩
      · exact absurd h0 hpass
      · have hmem : (.keystreamReader (bytes p.Passphrase) (bytes "onionize-keygen") :
            Effect H C L K R) ∈ (Onionize env p).trace := by
          rw [htr]; simp [callsUpToPort]
        exact ⟨_, mem_pre_of_rank_lt hsorted hsplit hmem (by simp [hr]), rfl⟩
    · intro z hz
      have := rank_lt_of_mem_post hsorted hsplit hz
      exact ⟨isKeyDerivation_of_rank (by omega) (by omega), isListen_of_rank (by omega)⟩
  · intro hsend
    have hr := rank_of_isSend hsend
    obtain ⟨target, t, t1, handler, link, c, nocfg, l, tAddr, hp, hs, hd, ha, hk, hl, hq,
      halt⟩ := reached_of_runs hruns hx (by omega) (by omega)
    rcases halt with ⟨err, _, h9, _⟩ | ⟨oi, rest, hn, hrun, _⟩
    · omega
    · have hmem : (.newOnion c (requestOf nocfg tAddr) : Effect H C L K R) ∈
          (Onionize env p).trace := by
        rw [hrun]; simp
      refine ⟨⟨_, mem_pre_of_rank_lt hsorted hsplit hmem (by simp [hr]), ?_⟩, fun z hz => ?_⟩
      · simp [isCreated, hn, Except.isOk, Except.toBool]
      · have := rank_lt_of_mem_pre hsorted hsplit hz
        exact isServe_of_rank (by omega)
  · intro hserve
    have hr := rank_of_isServe hserve
    obtain ⟨target, t, t1, handler, link, c, nocfg, l, tAddr, hp, hs, hd, ha, hk, hl, hq,
      halt⟩ := reached_of_runs hruns hx (by omega) (by omega)
    rcases halt with ⟨err, _, h9, _⟩ | ⟨oi, rest, hn, hrun, hsent⟩
    · omega
    · have hmem := hsent (by omega)
      exact ⟨_, mem_pre_of_rank_lt hsorted hsplit hmem (by simp [hr]), rfl⟩

/-- C6, on the demo file-server run, split at the send on `linkChan`: a
successful creation request precedes the send, and no `Serve` does. -/
theorem C6_effect_order_witness :
    (∃ y ∈ (Onionize demoEnv demoFiles).trace.take 10, isCreated demoEnv y = true) ∧
      ∀ y ∈ (Onionize demoEnv demoFiles).trace.take 10, isServe y = false :=
  (C6_effect_order demoEnv demoFiles ((Onionize demoEnv demoFiles).trace.take 10)
    ((Onionize demoEnv demoFiles).trace.drop 11)
    (.send { Scheme := "http", Host := "expyuzz4wqqyqhjn.onion", Path := "/mfrggzdfmztwq2lk" })
    (by decide)).2.2.1 (by decide)

/-- C7. The creation request of a run has `DiscardPK` and `AwaitForUpload` set,
whatever the key mode, and exactly one port specification: virtual port 80,
target the decimal rendering of the port of the listener that the run bound on
`127.0.0.1:0` (a TCP port, between 0 and 65535). -/
theorem C7_creation_request (env : Env H C L K R) (p : Parameters) (c : C)
    (cfg : NewOnionConfig K) (l : L) (tAddr : TCPAddr)
    (hm : .newOnion c cfg ∈ (Onionize env p).trace)
    (hl : env.Listen "tcp4" "127.0.0.1:0" = .ok l) (ha : env.Addr l = some tAddr)
    (hport : 0 ≤ tAddr.Port ∧ tAddr.Port ≤ 65535) :
    cfg.DiscardPK = true ∧ cfg.AwaitForUpload = true ∧
      cfg.PortSpecs = [{ VirtPort := 80, Target := Nat.repr tAddr.Port.toNat }] ∧
      (.listen "tcp4" "127.0.0.1:0" : Effect H C L K R) ∈ (Onionize env p).trace := by
  obtain ⟨target, t, t1, handler, link, nocfg, l1, tAddr1, hp, hs, hd, hauth, hk, hl1, hq,
    rfl, halt⟩ := request_of_runs (Onionize_runs env p) hm
  rw [hl] at hl1
  obtain rfl := Except.ok.inj hl1
  rw [ha] at hq
  obtain rfl := Option.some.inj hq
  have hflags : nocfg.DiscardPK = true ∧ nocfg.AwaitForUpload = true := by
    rcases keyMaterial_ok hk with ⟨_, _, rfl⟩ | ⟨_, _, _, _, _, _, rfl⟩ <;> exact ⟨rfl, rfl⟩
  refine ⟨hflags.1, hflags.2, ?_, ?_⟩
  · simp only [requestOf, portSpecOf, uint64_of_port hport.1 hport.2, FormatUint_ten]
  · rcases halt with ⟨err, _, hrun⟩ | ⟨oi, rest, _, hrun⟩ <;> (rw [hrun]; simp [callsUpToPort])

/-- C7, on the demo run: port 40123 is forwarded from virtual port 80. -/
theorem C7_creation_request_witness :
    .newOnion 1 demoRequest ∈ (Onionize demoEnv demoFiles).trace ∧
      demoRequest.DiscardPK = true ∧ demoRequest.AwaitForUpload = true ∧
      demoRequest.PortSpecs = [{ VirtPort := 80, Target := Nat.repr (40123 : Int).toNat }] ∧
      .listen "tcp4" "127.0.0.1:0" ∈ (Onionize demoEnv demoFiles).trace :=
  ⟨by decide,
    C7_creation_request demoEnv demoFiles 1 demoRequest 3
      { IP := [127, 0, 0, 1], Port := 40123, Zone := "" }
      (by decide) (by decide) (by decide) (by decide)⟩

/-- C8. The value a run sends on `linkChan` has scheme `http`, host the
`OnionID` that `NewOnion` returned followed by `.onion`, and path the link that
handler selection returned; for a target of scheme `http` or `https` that path
is empty, whatever the flags. -/
theorem C8_published_address (env : Env H C L K R) (p : Parameters) (u : URL)
    (hm : .send u ∈ (Onionize env p).trace) :
    ∃ target handler link c cfg oi,
      env.urlParse p.Path = .ok target ∧
      (selectHandler env p target).2 = .ok (handler, link) ∧
      .newOnion c cfg ∈ (Onionize env p).trace ∧
      env.NewOnion c cfg = .ok oi ∧
      u = { Scheme := "http", Host := oi.OnionID ++ ".onion", Path := link } ∧
      (target.Scheme = "http" ∨ target.Scheme = "https" → u.Path = "") := by
  have hruns := Onionize_runs env p
  obtain ⟨target, t, t1, handler, link, c, nocfg, l, tAddr, hp, hs, hd, ha, hk, hl, hq,
    halt⟩ := reached_of_runs hruns hm (by simp) (by simp)
  rcases halt with ⟨err, _, h9, _⟩ | ⟨oi, rest, hn, hrun, hsent⟩
  · simp at h9
  · have hsend : (.send { Scheme := "http", Host := oi.OnionID ++ ".onion", Path := link } :
        Effect H C L K R) ∈ (Onionize env p).trace := hsent (by simp)
    have heq := eq_of_rank_eq (sorted_of_runs hruns) hm hsend (by simp)
    simp only [Effect.send.injEq] at heq
    subst heq
    refine ⟨target, handler, link, c, requestOf nocfg tAddr, oi, hp, by rw [hs], ?_, hn, rfl,
      ?_⟩
    · rw [hrun]; simp
    · intro hscheme
      rcases selectHandler_ok hs with ⟨_, _, _, hlink⟩ | ⟨h0, _, _⟩
      · exact hlink
      · rw [h0] at hscheme
        exact absurd hscheme (by decide)

/-- C8, on the demo file-server run and its published address. -/
theorem C8_published_address_witness :
    .send demoAddress ∈ (Onionize demoEnv demoFiles).trace ∧
      ∃ target handler link c cfg oi,
        demoEnv.urlParse demoFiles.Path = .ok target ∧
        (selectHandler demoEnv demoFiles target).2 = .ok (handler, link) ∧
        .newOnion c cfg ∈ (Onionize demoEnv demoFiles).trace ∧
        demoEnv.NewOnion c cfg = .ok oi ∧
        demoAddress = { Scheme := "http", Host := oi.OnionID ++ ".onion", Path := link } ∧
        (target.Scheme = "http" ∨ target.Scheme = "https" → demoAddress.Path = "") :=
  ⟨by decide, C8_published_address demoEnv demoFiles demoAddress (by decide)⟩

/-- C9. Key material depends on the passphrase alone.  Without a passphrase a
run calls neither `KeystreamReader` nor `GenerateOnionKey`, and its creation
request carries no private key.  With one, the request carries
`GenerateOnionKey(KeystreamReader(passphrase, "onionize-keygen"), "current")`.
So two runs with the same passphrase and the same key derivation library submit
the same private key, whatever their other parameters and collaborators. -/
theorem C9_key_material (env1 env2 : Env H C L K R) (p1 p2 : Parameters)
    (hks : env1.KeystreamReader = env2.KeystreamReader)
    (hgen : env1.GenerateOnionKey = env2.GenerateOnionKey)
    (hpass : p1.Passphrase = p2.Passphrase) :
    (p1.Passphrase = "" → ∀ x ∈ (Onionize env1 p1).trace, isKeyDerivation x = false) ∧
    (∀ c cfg, .newOnion c cfg ∈ (Onionize env1 p1).trace →
      (p1.Passphrase = "" → cfg.PrivateKey = none) ∧
      (p1.Passphrase ≠ "" → ∃ keyrd key,
        env1.KeystreamReader (bytes p1.Passphrase) (bytes "onionize-keygen") = .ok keyrd ∧
        env1.GenerateOnionKey keyrd "current" = .ok key ∧ cfg.PrivateKey = some key)) ∧
    (∀ c1 cfg1 c2 cfg2, .newOnion c1 cfg1 ∈ (Onionize env1 p1).trace →
      .newOnion c2 cfg2 ∈ (Onionize env2 p2).trace → cfg1.PrivateKey = cfg2.PrivateKey) := by
  refine ⟨?_, ?_, ?_⟩
  · intro h0 x hx
    cases hk : isKeyDerivation x with
    | false => rfl
    | true =>
      have hr := rank_of_isKeyDerivation hk
      exact absurd h0 (passphrase_of_runs (Onionize_runs env1 p1) hx (by omega) (by omega))
  · intro c cfg hm
    rcases privateKey_of_runs (Onionize_runs env1 p1) hm with ⟨h0, hnone⟩ | ⟨hne, hsome⟩
    · exact ⟨fun _ => hnone, fun hne => absurd h0 hne⟩
    · exact ⟨fun h0 => absurd h0 hne, fun _ => hsome⟩
  · intro c1 cfg1 c2 cfg2 hm1 hm2
    rcases privateKey_of_runs (Onionize_runs env1 p1) hm1 with
      ⟨h0, hnone⟩ | ⟨hne, keyrd, key, hk1, hg1, hsome⟩
    · rcases privateKey_of_runs (Onionize_runs env2 p2) hm2 with
        ⟨_, hnone2⟩ | ⟨hne2, _⟩
      · rw [hnone, hnone2]
      · exact absurd (hpass ▸ h0) hne2
    · rcases privateKey_of_runs (Onionize_runs env2 p2) hm2 with
        ⟨h02, _⟩ | ⟨_, keyrd2, key2, hk2, hg2, hsome2⟩
      · exact absurd (hpass ▸ h02) hne
      · rw [← hks, ← hpass, hk1] at hk2
        obtain rfl := Except.ok.inj hk2
        rw [← hgen, hg1] at hg2
        obtain rfl := Except.ok.inj hg2
        rw [hsome, hsome2]

/-- C9, on two demo runs that share only the passphrase: both requests carry
the key 1013. -/
theorem C9_key_material_witness :
    .newOnion 1 demoRequest ∈ (Onionize demoEnv demoFiles).trace ∧
      .newOnion 2 otherRequest ∈ (Onionize otherEnv demoOther).trace ∧
      demoRequest.PrivateKey = otherRequest.PrivateKey :=
  ⟨by decide, by decide,
    (C9_key_material demoEnv otherEnv demoFiles demoOther rfl rfl rfl).2.2
      1 demoRequest 2 otherRequest (by decide) (by decide)⟩

/-- C10. When the creation request of a run is refused, the run returns the
service-creation error and the only call after the request is the close of the
control session: nothing is sent on `linkChan`, `Serve` is not called, and the
listener, bound before the request, is not closed.  A run closes the listener
only when the port extraction failed, and such a run submits no creation
request. -/
theorem C10_failed_creation (env : Env H C L K R) (p : Parameters) :
    (∀ pre post c cfg err, (Onionize env p).trace = pre ++ .newOnion c cfg :: post →
      env.NewOnion c cfg = .error err →
      (Onionize env p).outcome =
          .returned (some ("Error occured while creating an onion service: " ++ err)) ∧
        post = [.close c] ∧
        (∃ y ∈ pre, isListen y = true) ∧
        ∀ y ∈ (Onionize env p).trace,
          isListenerClose y = false ∧ isSend y = false ∧ isServe y = false) ∧
    (∀ l, .listenerClose l ∈ (Onionize env p).trace →
      env.Addr l = none ∧
        (Onionize env p).outcome = .returned (some "Failed to extract local port") ∧
        ∀ y ∈ (Onionize env p).trace, isNewOnion y = false) := by
  have hruns := Onionize_runs env p
  have hsorted := sorted_of_runs hruns
  constructor
  · intro pre post c cfg err hsplit hfail
    have hm : (.newOnion c cfg : Effect H C L K R) ∈ (Onionize env p).trace := by
      rw [hsplit]; simp
    obtain ⟨target, t, t1, handler, link, nocfg, l, tAddr, hp, hs, hd, ha, hk, hl, hq, hcfg,
      halt⟩ := request_of_runs hruns hm
    rcases halt with ⟨err1, hn, hrun⟩ | ⟨oi, rest, hn, _⟩
    · rw [hfail] at hn
      obtain rfl := Except.error.inj hn
      have htrace : (Onionize env p).trace =
          callsUpToPort p t t1 c l ++ .newOnion c cfg :: [.close c] := by rw [hrun]
      rw [htrace] at hsorted
      obtain ⟨hpre, _, hpost⟩ := split_unique hsorted (hsplit.symm.trans htrace) rfl
      subst hpre hpost
      refine ⟨by rw [hrun], rfl, ⟨.listen "tcp4" "127.0.0.1:0", by simp [callsUpToPort], rfl⟩,
        fun y hy => ?_⟩
      have hrank : rank y ≤ 7 ∨ rank y = 9 ∨ rank y = 13 := by
        rw [htrace] at hy
        rcases List.mem_append.mp hy with hy | hy
        · exact .inl (rank_callsUpToPort c l hs hk y hy)
        · have := List.mem_map_of_mem rank hy
          simp at this
          omega
      exact ⟨isListenerClose_of_rank (by omega), isSend_of_rank (by omega),
        isServe_of_rank (by omega)⟩
    · rw [hfail] at hn
      cases hn
  · intro l hm
    obtain ⟨l1, heq, hl, hq, hout, hno⟩ := listenerClose_of_runs hruns hm rfl
    simp only [Effect.listenerClose.injEq] at heq
    subst heq
    exact ⟨hq, hout, fun y hy => isNewOnion_of_rank (hno y hy)⟩

/-- C10, on a daemon that refuses the service and on a listener without a TCP
address: the first run ends on the request and the close of session 1, with the
listener left open; the second closes the listener and submits no request. -/
theorem C10_failed_creation_witness :
    (Onionize refusingEnv demoFiles).trace.drop 9 = [.close 1] ∧
      (Onionize refusingEnv demoFiles).outcome =
        .returned (some ("Error occured while creating an onion service: " ++
          "512 Invalid VIRTPORT/TARGET")) ∧
      (∀ y ∈ (Onionize refusingEnv demoFiles).trace, isListenerClose y = false) ∧
      .listenerClose 3 ∈ (Onionize noPortEnv demoFiles).trace ∧
      ∀ y ∈ (Onionize noPortEnv demoFiles).trace, isNewOnion y = false :=
  have h1 := (C10_failed_creation refusingEnv demoFiles).1
    ((Onionize refusingEnv demoFiles).trace.take 8)
    ((Onionize refusingEnv demoFiles).trace.drop 9) 1 demoRequest
    "512 Invalid VIRTPORT/TARGET" (by decide) (by decide)
  have h2 := (C10_failed_creation noPortEnv demoFiles).2 3 (by decide)
  ⟨h1.2.1, h1.1, fun y hy => (h1.2.2.2 y hy).1, by decide, h2.2.2⟩

end onionize
